import Mathlib

/-!
Verification of the AWS-AutoML-Lite preprocessing and inference core.

This file gives a shallow embedding, in Lean 4, of the column classifier,
the preprocessor, and the prediction path of the repository
(`backend/training/utils.py`, `backend/training/preprocessor.py`,
`backend/api/routers/predict.py`), and proves or refutes the claims of the
specification against it.

Modelling conventions:
* a pandas `Series`/DataFrame column is a `Column`: an `int64` column is a
  list of integers, a float column is a list of optional rationals
  (`none` models `NaN`), an `object` column is a list of optional strings;
* Python `float` values are modelled as rationals (`ℚ`); every numeric
  literal appearing in the claims is exactly representable, so no
  floating-point rounding is load-bearing for any claim settled here;
* Python dictionaries are association lists updated in insertion order,
  exactly as CPython preserves insertion order;
* external library calls (sklearn `LabelEncoder`, `train_test_split`,
  feature-engine detectors, numpy) are modelled from their documented
  behaviour, noted at each definition.
-/

namespace AutoMLLite

/-! ### Character-list string machinery

Python string operations used by the source (`lower`, `strip`, membership,
`re.search` on the fixed identifier patterns) are modelled on `List Char`
so that everything reduces by `decide`. -/

/-- Lexicographic comparison of character lists by code point, the order
`numpy.unique` uses when it sorts distinct strings. -/
def charsLe : List Char → List Char → Bool
  | [], _ => true
  | _ :: _, [] => false
  | a :: as, b :: bs =>
    if a.toNat < b.toNat then true
    else if b.toNat < a.toNat then false
    else charsLe as bs

/-- String comparison by code points (the order of `numpy.unique`). -/
def strLe (a b : String) : Bool := charsLe a.data b.data

/-- Does `pat` occur as a prefix of `s`? -/
def isPrefixChars : List Char → List Char → Bool
  | [], _ => true
  | _ :: _, [] => false
  | p :: ps, c :: cs => p = c && isPrefixChars ps cs

/-- Does `pat` occur as a contiguous substring of `s`? -/
def isSubstrChars (pat : List Char) : List Char → Bool
  | [] => isPrefixChars pat []
  | c :: cs => isPrefixChars pat (c :: cs) || isSubstrChars pat cs

/-- The suffix of `s` after the first occurrence of `pat`, if any. -/
def afterFirst (pat : List Char) : List Char → Option (List Char)
  | [] => if isPrefixChars pat [] then some ([].drop pat.length) else none
  | c :: cs =>
    if isPrefixChars pat (c :: cs) then some ((c :: cs).drop pat.length)
    else afterFirst pat cs

/-- Python `str.lower` on a character list (ASCII case folding suffices for
the identifier patterns of the source). -/
def lowerChars (s : List Char) : List Char := s.map Char.toLower

/-- Python `str.strip` on a character list. -/
def stripChars (s : List Char) : List Char :=
  ((s.dropWhile (· = ' ')).reverse.dropWhile (· = ' ')).reverse

/-! ### Columns

`Column` models one pandas column together with its dtype, the only dtype
information the source consults (`is_numeric_dtype`, `dtype == 'object'`,
integer dtypes). -/

/-- One pandas column: an `int64` column, a float column (`none` = `NaN`),
or an `object` (string) column (`none` = `NaN`). -/
inductive Column where
  | ints (vals : List ℤ)
  | floats (vals : List (Option ℚ))
  | strs (vals : List (Option String))
deriving DecidableEq

/-- Number of rows of the column (`len(series)`), counting absent values. -/
def Column.length : Column → ℕ
  | .ints v => v.length
  | .floats v => v.length
  | .strs v => v.length

/-- Pandas `Series.nunique()`: the number of distinct non-absent values. -/
def Column.nunique : Column → ℕ
  | .ints v => v.dedup.length
  | .floats v => (v.filterMap id).dedup.length
  | .strs v => (v.filterMap id).dedup.length

/-- Pandas `is_numeric_dtype`. -/
def Column.isNumeric : Column → Bool
  | .ints _ => true
  | .floats _ => true
  | .strs _ => false

/-- Pandas `series.dtype == 'object'`. -/
def Column.isObject : Column → Bool
  | .ints _ => false
  | .floats _ => false
  | .strs _ => true

/-- Does every non-absent value of the column have no fractional part?
This embeds `(y.dropna() == y.dropna().astype(int)).all()` from
`detect_problem_type` in `backend/training/utils.py`: `astype(int)`
truncates, so the comparison holds exactly when the value is integral. -/
def Column.integerValued : Column → Bool
  | .ints _ => true
  | .floats v => (v.filterMap id).all (fun q => q.den = 1)
  | .strs _ => false

/-! ### Problem-type detection (`backend/training/utils.py`) -/

/-- Embeds `detect_problem_type` from `backend/training/utils.py`
(lines 32–96): empty target ⇒ classification; non-numeric ⇒
classification; integer-like with ≤ 10 distinct values ⇒ classification;
fewer than 20 distinct values with distinct/total ratio < 0.05 ⇒
classification; otherwise regression. -/
def detect_problem_type (y : Column) : String :=
  if y.length = 0 then "classification"
  else if y.isNumeric then
    let n_unique := y.nunique
    let uniqueFrac : ℚ := (n_unique : ℚ) / (y.length : ℚ)
    if y.integerValued ∧ n_unique ≤ 10 then "classification"
    else if n_unique < 20 ∧ uniqueFrac < 0.05 then "classification"
    else "regression"
  else "classification"

/-- Modelled from the spec (claim C2 wording): the ordered decision policy
(1) empty ⇒ classification; (2) non-numeric ⇒ classification; (3) numeric,
all non-absent values integer-valued, at most 10 distinct ⇒ classification;
(4) numeric, fewer than 20 distinct and distinct/total below 0.05 ⇒
classification; (5) otherwise regression. Stated separately so that the
code's function can be proved equal to the spec's policy. -/
def spec_problem_type (y : Column) : String :=
  if y.length = 0 then "classification"
  else if ¬ (y.isNumeric = true) then "classification"
  else if y.integerValued = true ∧ y.nunique ≤ 10 then "classification"
  else if y.nunique < 20 ∧ ((y.nunique : ℚ) / (y.length : ℚ)) < 0.05 then "classification"
  else "regression"

/-! ### Tables and dictionaries -/

/-- A DataFrame: named columns in order. Pandas forbids duplicate column
names; theorems that rely on that carry the corresponding `Nodup`
hypothesis explicitly. -/
abbrev Table := List (String × Column)

/-- Lookup in a Python dictionary modelled as an association list. -/
def alistGet {α : Type} : List (String × α) → String → Option α
  | [], _ => none
  | (k', v) :: rest, k => if k' = k then some v else alistGet rest k

/-- Assignment `d[k] = v` in a Python dictionary: replace the existing
entry, else append (CPython preserves insertion order). -/
def alistUpd {α : Type} : List (String × α) → String → α → List (String × α)
  | [], k, v => [(k, v)]
  | (k', v') :: rest, k, v =>
    if k' = k then (k', v) :: rest else (k', v') :: alistUpd rest k v

/-! ### The preprocessor state and the label encoder -/

/-- Fit-time state of `AutoPreprocessor` (`backend/training/preprocessor.py`,
lines 35–42). A fitted sklearn `LabelEncoder` is represented by its
`classes_` array: the sorted list of distinct string values. -/
structure AutoPreprocessor where
  target_column : String
  label_encoders : List (String × List String) := []
  feature_columns : List String := []
  numeric_columns : List String := []
  categorical_columns : List String := []
  dropped_columns : List String := []
deriving DecidableEq

/-- Proposition form of the code-point order on strings. -/
def strLeP : String → String → Prop := fun a b => strLe a b = true

instance strLeP_dec : DecidableRel strLeP := fun a b => by
  unfold strLeP; infer_instance

/-- Python `str()` applied to one cell of an `object` column:
`astype(str)` renders pandas `NaN` as the string `"nan"`. -/
def astype_str : Option String → String
  | none => "nan"
  | some s => s

/-- Fitted `classes_` of `LabelEncoder().fit(vals.astype(str))`:
`numpy.unique` returns the distinct values in ascending sorted order. -/
def fitClasses (vals : List (Option String)) : List String :=
  List.insertionSort strLeP ((vals.map astype_str).dedup)

/-- Column values produced by `le.fit_transform(df[col].astype(str))`:
each value is replaced by the index of its string form in `classes_`. -/
def fitEncodeCol (vals : List (Option String)) : List ℤ :=
  (vals.map astype_str).map (fun s => ((fitClasses vals).indexOf s : ℤ))

/-- Column values produced at transform time by
`df[col].astype(str).apply(lambda x: le.transform([x])[0] if x in le.classes_ else -1)`. -/
def transformEncodeCol (classes : List String) (vals : List (Option String)) : List ℤ :=
  (vals.map astype_str).map
    (fun s => if s ∈ classes then ((classes.indexOf s : ℕ) : ℤ) else -1)

/-- Fit-mode treatment of one column inside `encode_categorical`:
`object` columns are label encoded, numeric columns pass through. -/
def encodeColFit : String × Column → String × Column
  | (n, .strs vals) => (n, .ints (fitEncodeCol vals))
  | nc => nc

/-- Transform-mode treatment of one column inside `encode_categorical`:
an `object` column with a stored encoder is encoded (unseen values become
`-1`); an `object` column without one passes through unchanged; numeric
columns pass through. -/
def encodeColTransform (encoders : List (String × List String)) :
    String × Column → String × Column
  | (n, .strs vals) =>
    match alistGet encoders n with
    | some classes => (n, .ints (transformEncodeCol classes vals))
    | none => (n, .strs vals)
  | nc => nc

/-- Names of the `object`-dtype columns
(`df.select_dtypes(include=['object']).columns`). -/
def catColsOf (df : Table) : List String :=
  df.filterMap (fun nc => if nc.2.isObject then some nc.1 else none)

/-- Encoders accumulated by the fit loop: for every `object` column, in
column order, `self.label_encoders[col] = le`. -/
def fitEncoders (init : List (String × List String)) (df : Table) :
    List (String × List String) :=
  df.foldl
    (fun acc nc =>
      match nc.2 with
      | .strs vals => alistUpd acc nc.1 (fitClasses vals)
      | _ => acc)
    init

/-- Embeds `AutoPreprocessor.encode_categorical`
(`backend/training/preprocessor.py`, lines 223–243). -/
def AutoPreprocessor.encode_categorical (p : AutoPreprocessor) (df : Table)
    (fit : Bool) : AutoPreprocessor × Table :=
  if fit then
    ({ p with
        categorical_columns := catColsOf df,
        label_encoders := fitEncoders p.label_encoders df },
      df.map encodeColFit)
  else
    ({ p with categorical_columns := catColsOf df },
      df.map (encodeColTransform p.label_encoders))

/-! ### Order lemmas for the code-point comparison -/

theorem charsLe_total : ∀ a b : List Char, charsLe a b = true ∨ charsLe b a = true
  | [], _ => Or.inl rfl
  | _ :: _, [] => Or.inr rfl
  | a :: as, b :: bs => by
    simp only [charsLe]
    rcases Nat.lt_trichotomy a.toNat b.toNat with h | h | h
    · left; simp [h]
    · have h1 : ¬ a.toNat < b.toNat := by omega
      have h2 : ¬ b.toNat < a.toNat := by omega
      rcases charsLe_total as bs with ih | ih
      · left; simp [h1, h2, ih]
      · right; simp [h1, h2, ih]
    · right; simp [h]

theorem charsLe_trans : ∀ a b c : List Char,
    charsLe a b = true → charsLe b c = true → charsLe a c = true
  | [], _, _, _, _ => rfl
  | _ :: _, [], _, h, _ => by simp [charsLe] at h
  | _ :: _, _ :: _, [], _, h => by simp [charsLe] at h
  | a :: as, b :: bs, c :: cs, h1, h2 => by
    simp only [charsLe] at h1 h2 ⊢
    rcases Nat.lt_trichotomy a.toNat b.toNat with hab | hab | hab
    · rcases Nat.lt_trichotomy b.toNat c.toNat with hbc | hbc | hbc
      · simp [Nat.lt_trans hab hbc]
      · simp [hbc ▸ hab]
      · have h2a : ¬ b.toNat < c.toNat := by omega
        simp [h2a, hbc] at h2
    · rcases Nat.lt_trichotomy b.toNat c.toNat with hbc | hbc | hbc
      · simp [hab ▸ hbc]
      · have e1 : ¬ a.toNat < b.toNat := by omega
        have e2 : ¬ b.toNat < a.toNat := by omega
        have e3 : ¬ b.toNat < c.toNat := by omega
        have e4 : ¬ c.toNat < b.toNat := by omega
        have e5 : ¬ a.toNat < c.toNat := by omega
        have e6 : ¬ c.toNat < a.toNat := by omega
        simp only [e1, e2, if_false] at h1
        simp only [e3, e4, if_false] at h2
        simp only [e5, e6, if_false]
        exact charsLe_trans as bs cs h1 h2
      · have h2a : ¬ b.toNat < c.toNat := by omega
        simp [h2a, hbc] at h2
    · have h1a : ¬ a.toNat < b.toNat := by omega
      simp [h1a, hab] at h1

instance strLeP_total : IsTotal String strLeP :=
  ⟨fun a b => charsLe_total a.data b.data⟩

instance strLeP_trans : IsTrans String strLeP :=
  ⟨fun a b c => charsLe_trans a.data b.data c.data⟩

/-! ### Dictionary lemmas -/

theorem alistGet_upd_self {α : Type} (m : List (String × α)) (k : String) (v : α) :
    alistGet (alistUpd m k v) k = some v := by
  induction m with
  | nil => simp [alistUpd, alistGet]
  | cons kv rest ih =>
    obtain ⟨k', v'⟩ := kv
    by_cases h : k' = k
    · simp [alistUpd, alistGet, h]
    · simp [alistUpd, alistGet, h, ih]

theorem alistGet_upd_ne {α : Type} (m : List (String × α)) (k k' : String) (v : α)
    (h : k ≠ k') : alistGet (alistUpd m k v) k' = alistGet m k' := by
  induction m with
  | nil => simp [alistUpd, alistGet, h]
  | cons kv rest ih =>
    obtain ⟨k₀, v₀⟩ := kv
    by_cases h0 : k₀ = k
    · subst h0
      simp [alistUpd, alistGet, h]
    · simp [alistUpd, alistGet, h0, ih]

/-! ### Encoder-accumulation lemmas -/

theorem fitEncoders_get_of_notMem (df : Table)
    (init : List (String × List String)) (n : String)
    (h : n ∉ df.map Prod.fst) :
    alistGet (fitEncoders init df) n = alistGet init n := by
  induction df generalizing init with
  | nil => rfl
  | cons nc rest ih =>
    obtain ⟨m, col⟩ := nc
    simp only [List.map_cons, List.mem_cons, not_or] at h
    obtain ⟨hne, hrest⟩ := h
    cases col with
    | strs vals =>
      have hstep : fitEncoders init ((m, Column.strs vals) :: rest) =
          fitEncoders (alistUpd init m (fitClasses vals)) rest := rfl
      rw [hstep, ih _ hrest, alistGet_upd_ne _ _ _ _ (fun he => hne he.symm)]
    | ints vals => exact ih _ hrest
    | floats vals => exact ih _ hrest

theorem fitEncoders_get_of_mem (df : Table)
    (init : List (String × List String)) (n : String)
    (vals : List (Option String))
    (hnd : (df.map Prod.fst).Nodup) (hmem : (n, Column.strs vals) ∈ df) :
    alistGet (fitEncoders init df) n = some (fitClasses vals) := by
  induction df generalizing init with
  | nil => cases hmem
  | cons nc rest ih =>
    obtain ⟨m, col⟩ := nc
    simp only [List.map_cons, List.nodup_cons] at hnd
    rcases List.mem_cons.mp hmem with heq | hmem'
    · obtain ⟨h1, h2⟩ := Prod.mk.injEq .. ▸ heq
      subst h1
      subst h2
      have hstep : fitEncoders init ((n, Column.strs vals) :: rest) =
          fitEncoders (alistUpd init n (fitClasses vals)) rest := rfl
      rw [hstep, fitEncoders_get_of_notMem rest _ n hnd.1,
        alistGet_upd_self]
    · have hne : m ≠ n := by
        intro he
        subst he
        exact hnd.1 (List.mem_map_of_mem Prod.fst hmem')
      cases col with
      | strs mvals =>
        have hstep : fitEncoders init ((m, Column.strs mvals) :: rest) =
            fitEncoders (alistUpd init m (fitClasses mvals)) rest := rfl
        rw [hstep, ih _ hnd.2 hmem']
      | ints mvals => exact ih _ hnd.2 hmem'
      | floats mvals => exact ih _ hnd.2 hmem'

/-! ### Label-encoder lemmas -/

theorem mem_fitClasses {vals : List (Option String)} {s : String}
    (h : s ∈ vals.map astype_str) : s ∈ fitClasses vals := by
  unfold fitClasses
  rw [(List.perm_insertionSort strLeP _).mem_iff]
  exact List.mem_dedup.mpr h

theorem transformEncodeCol_fitClasses (vals : List (Option String)) :
    transformEncodeCol (fitClasses vals) vals = fitEncodeCol vals := by
  unfold transformEncodeCol fitEncodeCol
  refine List.map_congr_left (fun s hs => ?_)
  simp [mem_fitClasses hs]

theorem fitClasses_sorted (vals : List (Option String)) :
    List.Sorted strLeP (fitClasses vals) :=
  List.sorted_insertionSort strLeP _

theorem fitClasses_nodup (vals : List (Option String)) :
    (fitClasses vals).Nodup :=
  ((List.perm_insertionSort strLeP _).nodup_iff).mpr (List.nodup_dedup _)

/-! ### Claims C6, C7, C10 about `encode_categorical` -/

/-- Helper for the counterexample to C6: distinct values in first-seen
order. Modelled from the spec (claim C6 wording): "the first distinct
value encountered gets code 0, the next new distinct value gets code 1". -/
def firstSeenDistinct : List String → List String
  | [] => []
  | a :: as => a :: (firstSeenDistinct as).filter (fun b => !(b == a))

/-- Modelled from the spec (claim C6 wording): the encoding that assigns
dense codes in first-seen order, for comparison with the code's encoder. -/
def firstSeenCodes (vals : List (Option String)) : List ℤ :=
  (vals.map astype_str).map
    (fun s => ((firstSeenDistinct (vals.map astype_str)).indexOf s : ℤ))

/-- C6 counterexample: fitting the single categorical column `["b", "a"]`
yields codes `[1, 0]` — sklearn's `LabelEncoder` sorts the distinct values
— whereas assignment in first-seen order would yield `[0, 1]`; the first
distinct value encountered receives code 1, not 0, so the claim as stated
is false. -/
theorem encode_fit_not_first_seen :
    ((AutoPreprocessor.mk "t" [] [] [] [] []).encode_categorical
        [("c", Column.strs [some "b", some "a"])] true).2
      = [("c", Column.ints [1, 0])] ∧
    firstSeenCodes [some "b", some "a"] = [0, 1] ∧
    ¬ (([1, 0] : List ℤ) = [0, 1]) := by
  refine ⟨by decide, by decide, by decide⟩

/-- C6 (amended): with `fit=true` every categorical (`object`) column is
label encoded; the fitted vocabulary is the distinct string forms in
ascending code-point order, each value's code is the index of its string
form in that vocabulary (so codes are dense, non-negative and unique per
distinct value), and a transform-time lookup of a value absent from the
vocabulary yields the sentinel `-1` rather than failing. -/
theorem encode_fit_sorted_unique_codes :
    (∀ (p : AutoPreprocessor) (df : Table),
      (p.encode_categorical df true).2 = df.map encodeColFit) ∧
    (∀ vals : List (Option String),
      List.Sorted strLeP (fitClasses vals) ∧ (fitClasses vals).Nodup) ∧
    (∀ (vals : List (Option String)) (s : String),
      s ∈ vals.map astype_str → s ∈ fitClasses vals) ∧
    (∀ (vals : List (Option String)) (s t : String),
      s ∈ fitClasses vals → t ∈ fitClasses vals →
      (fitClasses vals).indexOf s = (fitClasses vals).indexOf t → s = t) ∧
    (∀ vals : List (Option String),
      fitEncodeCol vals =
        (vals.map astype_str).map (fun s => ((fitClasses vals).indexOf s : ℤ))) ∧
    (∀ (classes : List String) (vals : List (Option String)),
      transformEncodeCol classes vals =
        (vals.map astype_str).map
          (fun s => if s ∈ classes then ((classes.indexOf s : ℕ) : ℤ) else -1)) := by
  refine ⟨?_, ?_, ?_, ?_, fun _ => rfl, fun _ _ => rfl⟩
  · intro p df
    simp [AutoPreprocessor.encode_categorical]
  · intro vals
    exact ⟨fitClasses_sorted vals, fitClasses_nodup vals⟩
  · intro vals s hs
    exact mem_fitClasses hs
  · intro vals s t hs ht h
    exact (List.indexOf_inj hs ht).mp h

/-- Witness for C6 (amended) at a concrete input: the fitted vocabulary of
the column `["b", "a"]` is `["a", "b"]` and the hypotheses of the
membership and injectivity conjuncts are discharged at `"b"`. -/
theorem encode_fit_sorted_unique_codes_witness :
    ("b" ∈ fitClasses [some "b", some "a"]) ∧
    ("b" : String) = "b" := by
  constructor
  · exact encode_fit_sorted_unique_codes.2.2.1 [some "b", some "a"] "b" (by decide)
  · exact encode_fit_sorted_unique_codes.2.2.2.1 [some "b", some "a"] "b" "b"
      (by decide) (by decide) rfl

/-- C7: fitting and then transforming the same table reproduces identical
codes for every column, and the transform maps any value whose string form
is absent from the fitted vocabulary to `-1` (it is a total function —
never an exception). -/
theorem encode_categorical_roundtrip (p : AutoPreprocessor) (df : Table)
    (hnd : (df.map Prod.fst).Nodup) :
    ((p.encode_categorical df true).1.encode_categorical df false).2 =
      (p.encode_categorical df true).2 ∧
    (∀ (encoders : List (String × List String)) (n : String)
        (classes : List String) (vals : List (Option String)),
      alistGet encoders n = some classes →
      encodeColTransform encoders (n, Column.strs vals) =
        (n, Column.ints ((vals.map astype_str).map
          (fun s => if s ∈ classes then ((classes.indexOf s : ℕ) : ℤ) else -1)))) := by
  constructor
  · show df.map (encodeColTransform (fitEncoders p.label_encoders df)) =
      df.map encodeColFit
    refine List.map_congr_left (fun nc hmem => ?_)
    obtain ⟨n, col⟩ := nc
    cases col with
    | strs vals =>
      have hget : alistGet (fitEncoders p.label_encoders df) n =
          some (fitClasses vals) :=
        fitEncoders_get_of_mem df p.label_encoders n vals hnd hmem
      simp [encodeColTransform, encodeColFit, hget, transformEncodeCol_fitClasses]
    | ints v => rfl
    | floats v => rfl
  · intro encoders n classes vals hget
    simp [encodeColTransform, hget, transformEncodeCol]

/-- Witness for C7 at a concrete table: a categorical and a numeric column
with distinct names; the round-trip reproduces the fitted codes, and a
transform against the fitted encoder maps the unseen value `"green"`
to `-1`. -/
theorem encode_categorical_roundtrip_witness :
    (((AutoPreprocessor.mk "t" [] [] [] [] []).encode_categorical
        [("color", Column.strs [some "red", some "blue"]),
         ("v", Column.ints [1, 2])] true).1.encode_categorical
        [("color", Column.strs [some "red", some "blue"]),
         ("v", Column.ints [1, 2])] false).2 =
      (((AutoPreprocessor.mk "t" [] [] [] [] []).encode_categorical
        [("color", Column.strs [some "red", some "blue"]),
         ("v", Column.ints [1, 2])] true)).2 ∧
    encodeColTransform [("color", ["blue", "red"])]
        ("color", Column.strs [some "red", some "green"]) =
      ("color", Column.ints [1, -1]) := by
  constructor
  · exact (encode_categorical_roundtrip (AutoPreprocessor.mk "t" [] [] [] [] [])
      [("color", Column.strs [some "red", some "blue"]),
       ("v", Column.ints [1, 2])] (by decide)).1
  · have h := (encode_categorical_roundtrip (AutoPreprocessor.mk "t" [] [] [] [] [])
      [] (by decide)).2 [("color", ["blue", "red"])] "color" ["blue", "red"]
      [some "red", some "green"] (by decide)
    rw [h]
    decide

/-- C10: with `fit=false`, a categorical (string) column for which no
encoder was stored at fit time passes through completely unchanged — the
original strings survive, with no integer codes, no `-1` sentinel and no
error — so the output table need not be fully numeric. -/
theorem transform_passthrough_without_encoder (p : AutoPreprocessor)
    (df : Table) (n : String) (vals : List (Option String))
    (h : alistGet p.label_encoders n = none) :
    (p.encode_categorical df false).2 =
      df.map (encodeColTransform p.label_encoders) ∧
    encodeColTransform p.label_encoders (n, Column.strs vals) =
      (n, Column.strs vals) := by
  constructor
  · simp [AutoPreprocessor.encode_categorical]
  · simp [encodeColTransform, h]

/-- Witness for C10: a preprocessor with no stored encoders leaves the
string column `"city"` untouched in transform mode. -/
theorem transform_passthrough_without_encoder_witness :
    ((AutoPreprocessor.mk "t" [] [] [] [] []).encode_categorical
        [("city", Column.strs [some "NYC", some "LA"])] false).2 =
      [("city", Column.strs [some "NYC", some "LA"])].map
        (encodeColTransform []) ∧
    encodeColTransform [] ("city", Column.strs [some "NYC", some "LA"]) =
      ("city", Column.strs [some "NYC", some "LA"]) :=
  transform_passthrough_without_encoder (AutoPreprocessor.mk "t" [] [] [] [] [])
    [("city", Column.strs [some "NYC", some "LA"])] "city"
    [some "NYC", some "LA"] rfl

/-! ### The prediction path (`backend/api/routers/predict.py`)

Raw JSON feature values are ints, floats or strings; the ONNX session is
modelled by its declared input type string and its run function; the S3
download plus `InferenceSession` construction is an opaque loader. -/

/-- A raw feature value from the JSON request body. -/
inductive Value where
  | int (n : ℤ)
  | float (q : ℚ)
  | str (s : String)
deriving DecidableEq

/-- Smallest number of decimal digits after the point needed to write `q`
exactly, if at most `fuel` digits suffice. -/
def decExpAux (q : ℚ) : ℕ → Option ℕ
  | 0 => none
  | f + 1 => if q.den = 1 then some 0 else (decExpAux (q * 10) f).map (· + 1)

/-- Renders a rational with a finite decimal expansion the way Python
`str()` renders the corresponding float (`"30.0"`, `"-2.5"`); falls back
to the raw rational rendering otherwise. Models the Python float repr on
the exact decimal values that occur in JSON prediction inputs; no claim
settled here depends on the fallback. -/
def floatRepr (q : ℚ) : String :=
  match decExpAux q 40 with
  | some 0 => toString q.num ++ ".0"
  | some (e + 1) =>
    let digits := toString (q * (10 : ℚ) ^ (e + 1)).num.natAbs
    let digits :=
      if digits.length < e + 2 then
        String.mk (List.replicate (e + 2 - digits.length) '0') ++ digits
      else digits
    (if q < 0 then "-" else "") ++
      String.mk (digits.data.take (digits.length - (e + 1))) ++ "." ++
      String.mk (digits.data.drop (digits.length - (e + 1)))
  | none => toString q

/-- Python `str()` of a raw value, as used by the categorical lookup
`str(encoded[col])`. -/
def pyStr : Value → String
  | .str s => s
  | .int n => toString n
  | .float q => floatRepr q

/-- Decimal digits to a natural number accumulator. -/
def digitsToNat : List Char → ℕ → ℕ
  | [], acc => acc
  | c :: cs, acc => digitsToNat cs (acc * 10 + (c.toNat - '0'.toNat))

/-- Models Python `float(s)` on plain decimal literals: optional
whitespace, optional sign, digits with an optional fractional part
(`"30"`, `"-2.5"`, `"3."`, `".5"`). Other strings — in particular
non-numeric words such as `"Chicago"` — fail. Exponent and infinity
forms, which occur in no claim, are not modelled. -/
def pyFloat (s : String) : Option ℚ :=
  let t := stripChars s.data
  let st : ℚ × List Char :=
    match t with
    | '-' :: r => (-1, r)
    | '+' :: r => (1, r)
    | r => (1, r)
  let ip := st.2.takeWhile Char.isDigit
  let rest := st.2.dropWhile Char.isDigit
  match rest with
  | [] => if ip.isEmpty then none else some (st.1 * (digitsToNat ip 0 : ℚ))
  | '.' :: fp =>
    if fp.all Char.isDigit ∧ ¬ (ip = [] ∧ fp = []) then
      some (st.1 * ((digitsToNat ip 0 : ℚ) +
        (digitsToNat fp 0 : ℚ) / (10 : ℚ) ^ fp.length))
    else none
  | _ => none

/-- Python `pat in s` substring test. -/
def strContains (s pat : String) : Bool := isSubstrChars pat.data s.data

/-- Python repr of a list of strings, as an f-string renders
`missing_features`. -/
def pyListRepr (l : List String) : String :=
  "[" ++ String.intercalate ", " (l.map (fun s => "'" ++ s ++ "'")) ++ "]"

/-- The `preprocessing_info` blob stored with a job (the Preprocessing
Contract), fields as in `PreprocessingInfo` of
`backend/api/models/schemas.py` (lines 129–138); only the fields the
prediction path reads are carried. -/
structure PreprocessingInfo where
  feature_columns : List String := []
  feature_types : List (String × String) := []
  categorical_mappings : List (String × List (String × ℤ)) := []
  target_mapping : Option (List (String × String)) := none
deriving DecidableEq

/-- First output element of the ONNX run (`outputs[0][0]`). -/
inductive OutVal where
  | int (n : ℤ)
  | float (q : ℚ)
  | other (s : String)
deriving DecidableEq

/-- Second output element (`outputs[1][0]`), when present: per-class
probabilities as a dict (LightGBM) or as a flat array. -/
inductive ProbOut where
  | dict (m : List (String × ℚ))
  | arr (l : List ℚ)

/-- A loaded ONNX `InferenceSession`: its declared input type string and
its run function. -/
structure Session where
  input_type : String
  run : List ℚ → OutVal × Option ProbOut

/-- Job metadata read from the store by the prediction handler. -/
structure Job where
  deployed : Bool := false
  onnx_model_path : Option String := none
  preprocessing_info : Option PreprocessingInfo := none
  problem_type : Option String := none
  metrics : List (String × String) := []

/-- Body of the `_encode_categorical_features` loop (predict.py lines
115–122) for one `(column, mapping)` pair: when the column is present,
replace its value by the mapped code, or by the sentinel `-1` when the
string form is absent from the mapping. -/
def encodeStep (acc : List (String × Value))
    (cm : String × List (String × ℤ)) : List (String × Value) :=
  match alistGet acc cm.1 with
  | some v =>
    match alistGet cm.2 (pyStr v) with
    | some code => alistUpd acc cm.1 (Value.int code)
    | none => alistUpd acc cm.1 (Value.int (-1))
  | none => acc

/-- Embeds `_encode_categorical_features` (predict.py lines 99–124): the
loop over `categorical_mappings.items()`. -/
def encode_categorical_features (features : List (String × Value))
    (mappings : List (String × List (String × ℤ))) : List (String × Value) :=
  mappings.foldl encodeStep features

/-- Per-column step of the vector-building loop of `_prepare_input`
(predict.py lines 157–168): ints and floats pass, strings are coerced via
`float()`, and a failed coercion is the `InvalidFeatureValue` error. -/
def prepareValue (features : List (String × Value)) (col : String) :
    Except String ℚ :=
  match alistGet features col with
  | none => .error ("Missing required feature: " ++ col)
  | some (.int n) => .ok (n : ℚ)
  | some (.float q) => .ok q
  | some (.str s) =>
    match pyFloat s with
    | some q => .ok q
    | none =>
      .error ("Cannot convert '" ++ s ++ "' to number for feature '" ++ col ++ "'")

/-- Left-to-right vector assembly over `feature_columns`, stopping at the
first failing column exactly as the Python loop raises. -/
def buildVector (features : List (String × Value)) :
    List String → Except String (List ℚ)
  | [] => .ok []
  | col :: cols =>
    match prepareValue features col with
    | .error e => .error e
    | .ok q =>
      match buildVector features cols with
      | .error e => .error e
      | .ok qs => .ok (q :: qs)

/-- Result of `_prepare_input`: the dtype choice (`float32` when the
declared input type mentions `float`) and the single-row vector. -/
structure PreparedInput where
  dtype32 : Bool
  row : List ℚ
deriving DecidableEq

/-- Embeds `_prepare_input` (predict.py lines 127–174). -/
def prepare_input (features : List (String × Value))
    (feature_columns : List String) (sess : Session)
    (preprocessing_info : Option PreprocessingInfo) :
    Except String PreparedInput :=
  let features :=
    match preprocessing_info with
    | some pi =>
      if pi.categorical_mappings ≠ [] then
        encode_categorical_features features pi.categorical_mappings
      else features
    | none => features
  match buildVector features feature_columns with
  | .error e => .error e
  | .ok row => .ok ⟨strContains sess.input_type "float", row⟩

/-! ### The model cache -/

/-- The module-level `_model_cache` dictionary. -/
abbrev ModelCache := List (String × Session)

/-- The capacity constant defined at predict.py line 33. The module
comment says it limits the cache "to MAX_CACHED_MODELS to prevent
unbounded memory growth", but no code consults it. -/
def MAX_CACHED_MODELS : ℕ := 3

/-- Embeds `_get_cached_model` (predict.py lines 50–96): a hit returns the
cached session; a miss invokes the loader (S3 download plus session
construction) and stores the result. The returned numeral counts loader
invocations (0 on a hit, 1 on a miss). No eviction of any kind occurs. -/
def get_cached_model (loader : String → Session) (cache : ModelCache)
    (job_id : String) : Session × ModelCache × ℕ :=
  match alistGet cache job_id with
  | some s => (s, cache, 0)
  | none =>
    let s := loader job_id
    (s, alistUpd cache job_id s, 1)

/-- An HTTP error response raised by the handler. -/
structure HTTPError where
  status : ℕ
  detail : String
deriving DecidableEq

/-- The prediction value in the response: int, float, or string. -/
inductive PredOut where
  | int (n : ℤ)
  | float (q : ℚ)
  | str (s : String)
deriving DecidableEq

/-- The fields of `PredictionResponse` that the handler computes
(inference time, a wall-clock reading, is not modelled). -/
structure PredictionResponse where
  job_id : String
  prediction : PredOut
  probability : Option ℚ
  probabilities : Option (List (String × ℚ))
  model_type : String
deriving DecidableEq

/-- Python `max` over a list of rationals (`none` on the empty list, where
Python raises). -/
def listMaxQ : List ℚ → Option ℚ
  | [] => none
  | q :: qs => some (qs.foldl max q)

/-- Embeds the `make_prediction` handler (predict.py lines 177–305): job
lookup, deployment and model-path checks, feature validation, cached model
load, input preparation, inference and output decoding. The result carries
the HTTP outcome, the cache after the call, and the number of loader
invocations performed by the call. -/
def make_prediction (getJob : String → Option Job)
    (loader : String → Session) (cache : ModelCache) (job_id : String)
    (features : List (String × Value)) :
    Except HTTPError PredictionResponse × ModelCache × ℕ :=
  match getJob job_id with
  | none => (.error ⟨404, "Job not found"⟩, cache, 0)
  | some job =>
    if job.deployed = false then
      (.error ⟨400, "Model is not deployed. Deploy the model first using POST /jobs/{job_id}/deploy"⟩,
        cache, 0)
    else
      match job.onnx_model_path with
      | none => (.error ⟨400, "No ONNX model available for this job"⟩, cache, 0)
      | some _ =>
        let pi := job.preprocessing_info.getD {}
        let feature_columns := pi.feature_columns
        if feature_columns = [] then
          (.error ⟨500, "Model metadata missing feature columns information"⟩,
            cache, 0)
        else
          let missing := feature_columns.filter
            (fun c => (alistGet features c).isNone)
          if missing ≠ [] then
            (.error ⟨400, "Missing required features: " ++ pyListRepr missing⟩,
              cache, 0)
          else
            let scl := get_cached_model loader cache job_id
            let model_type := (alistGet job.metrics "best_estimator").getD "unknown"
            match prepare_input features feature_columns scl.1 (some pi) with
            | .error e => (.error ⟨400, e⟩, scl.2.1, scl.2.2)
            | .ok input =>
              let out := scl.1.run input.row
              let problem_type := job.problem_type.getD "classification"
              if problem_type = "regression" then
                match out.1 with
                | .int n =>
                  (.ok ⟨job_id, .float (n : ℚ), none, none, model_type⟩,
                    scl.2.1, scl.2.2)
                | .float q =>
                  (.ok ⟨job_id, .float q, none, none, model_type⟩,
                    scl.2.1, scl.2.2)
                | .other _ =>
                  (.error ⟨500, "Prediction error: float() conversion failed"⟩,
                    scl.2.1, scl.2.2)
              else
                let p : PredOut :=
                  match out.1 with
                  | .int n => .int n
                  | .float q => .float q
                  | .other s => .str s
                match out.2 with
                | none => (.ok ⟨job_id, p, none, none, model_type⟩, scl.2.1, scl.2.2)
                | some (.dict m) =>
                  (.ok ⟨job_id, p, listMaxQ (m.map Prod.snd),
                      some m, model_type⟩, scl.2.1, scl.2.2)
                | some (.arr l) =>
                  match listMaxQ l with
                  | none =>
                    (.error ⟨500, "Prediction error: max() arg is an empty sequence"⟩,
                      scl.2.1, scl.2.2)
                  | some mx =>
                    (.ok ⟨job_id, p, some mx,
                        some (l.enum.map (fun ip => (toString ip.1, ip.2))),
                        model_type⟩, scl.2.1, scl.2.2)

/-! ### Claims C1, C3, C4, C5 about the prediction path -/

/-- C1 (evidence for the code bug): the cache never shrinks under
`get_cached_model`, and at the concrete failing input — four distinct
model ids loaded in order — the cache holds four entries, exceeding
`MAX_CACHED_MODELS = 3`, with no eviction; a fifth call for the first id
is a cache hit performing zero further loads, where the claim expects the
id to have been evicted and reloaded. -/
theorem model_cache_never_evicts :
    (∀ (loader : String → Session) (cache : ModelCache) (job_id : String),
      cache.length ≤ ((get_cached_model loader cache job_id).2.1).length) ∧
    (∀ loader : String → Session,
      let c1 := (get_cached_model loader [] "m1").2.1
      let c2 := (get_cached_model loader c1 "m2").2.1
      let c3 := (get_cached_model loader c2 "m3").2.1
      let c4 := (get_cached_model loader c3 "m4").2.1
      c4.map Prod.fst = ["m1", "m2", "m3", "m4"] ∧
      c4.length = 4 ∧
      MAX_CACHED_MODELS = 3 ∧
      MAX_CACHED_MODELS < c4.length ∧
      (get_cached_model loader c4 "m1").2.2 = 0 ∧
      ((get_cached_model loader c4 "m1").2.1).map Prod.fst =
        ["m1", "m2", "m3", "m4"]) := by
  constructor
  · intro loader cache job_id
    unfold get_cached_model
    cases h : alistGet cache job_id with
    | some s => simp
    | none =>
      simp only
      have : ∀ (m : ModelCache) (k : String) (s : Session),
          m.length ≤ (alistUpd m k s).length := by
        intro m k s
        induction m with
        | nil => simp [alistUpd]
        | cons kv rest ih =>
          obtain ⟨k', v'⟩ := kv
          by_cases hk : k' = k
          · simp [alistUpd, hk]
          · simp only [alistUpd, hk, if_false, List.length_cons]
            omega
      exact this cache job_id (loader job_id)
  · intro loader
    refine ⟨rfl, rfl, rfl, ?_, rfl, rfl⟩
    show (3 : ℕ) < 4
    decide

/-- C4: when one or more names of the Contract's `feature_columns` are
absent from the request features, `make_prediction` fails with a single
400 response listing all the missing names (in `feature_columns` order),
the cache is untouched and the loader is never invoked — the failure
precedes any model load. -/
theorem missing_features_all_reported_before_load
    (getJob : String → Option Job) (loader : String → Session)
    (cache : ModelCache) (job_id : String) (features : List (String × Value))
    (job : Job) (pi : PreprocessingInfo)
    (hjob : getJob job_id = some job)
    (hdep : job.deployed = true)
    (hpath : ∃ p, job.onnx_model_path = some p)
    (hpi : job.preprocessing_info = some pi)
    (hfc : pi.feature_columns ≠ [])
    (hmiss : pi.feature_columns.filter (fun c => (alistGet features c).isNone) ≠ []) :
    make_prediction getJob loader cache job_id features =
      (.error ⟨400, "Missing required features: " ++
          pyListRepr (pi.feature_columns.filter
            (fun c => (alistGet features c).isNone))⟩,
        cache, 0) := by
  obtain ⟨p, hp⟩ := hpath
  simp only [make_prediction, hjob, hdep, hp, hpi, Option.getD_some,
    Bool.true_eq_false, if_false]
  rw [if_neg hfc, if_pos hmiss]

/-- Witness for C4 at the spec's concrete scenario: `feature_columns`
`["age","city"]` and input `{"age": 30}` produce the single error naming
exactly `['city']`, with an unchanged cache and zero loads. -/
theorem missing_features_all_reported_before_load_witness :
    make_prediction
        (fun _ => some
          { deployed := true, onnx_model_path := some "s3://b/k.onnx",
            preprocessing_info := some { feature_columns := ["age", "city"] } })
        (fun _ => ⟨"tensor(float)", fun _ => (OutVal.int 0, none)⟩)
        [] "job-1" [("age", Value.int 30)] =
      (.error ⟨400, "Missing required features: ['city']"⟩, [], 0) := by
  have h := missing_features_all_reported_before_load
    (fun _ => some
      { deployed := true, onnx_model_path := some "s3://b/k.onnx",
        preprocessing_info := some { feature_columns := ["age", "city"] } })
    (fun _ => ⟨"tensor(float)", fun _ => (OutVal.int 0, none)⟩)
    [] "job-1" [("age", Value.int 30)]
    { deployed := true, onnx_model_path := some "s3://b/k.onnx",
      preprocessing_info := some { feature_columns := ["age", "city"] } }
    { feature_columns := ["age", "city"] }
    rfl rfl ⟨"s3://b/k.onnx", rfl⟩ rfl (by decide) (by decide)
  rw [h]
  rfl


/-- One encoding step does not change any other column. -/
theorem encodeStep_get_ne (acc : List (String × Value)) (c : String)
    (mm : List (String × ℤ)) (col : String) (h : c ≠ col) :
    alistGet (encodeStep acc (c, mm)) col = alistGet acc col := by
  unfold encodeStep
  cases hv : alistGet acc c with
  | none => rfl
  | some v =>
    cases hm : alistGet mm (pyStr v) with
    | none =>
      simp only [hv, hm]
      exact alistGet_upd_ne _ _ _ _ h
    | some code =>
      simp only [hv, hm]
      exact alistGet_upd_ne _ _ _ _ h

/-- One encoding step maps a value absent from the mapping to `-1`. -/
theorem encodeStep_get_unknown (acc : List (String × Value)) (c : String)
    (mm : List (String × ℤ)) (v : Value)
    (hv : alistGet acc c = some v) (hm : alistGet mm (pyStr v) = none) :
    alistGet (encodeStep acc (c, mm)) c = some (Value.int (-1)) := by
  unfold encodeStep
  simp only [hv, hm]
  exact alistGet_upd_self acc c (Value.int (-1))

/-- Encoding leaves columns without a stored mapping untouched. -/
theorem encode_categorical_features_notkey
    (mappings : List (String × List (String × ℤ)))
    (acc : List (String × Value)) (col : String)
    (h : col ∉ mappings.map Prod.fst) :
    alistGet (encode_categorical_features acc mappings) col =
      alistGet acc col := by
  induction mappings generalizing acc with
  | nil => rfl
  | cons cm rest ih =>
    obtain ⟨c, m⟩ := cm
    simp only [List.map_cons, List.mem_cons, not_or] at h
    have hne : c ≠ col := fun he => h.1 he.symm
    have hstep : encode_categorical_features acc ((c, m) :: rest) =
        encode_categorical_features (encodeStep acc (c, m)) rest := rfl
    rw [hstep, ih _ h.2, encodeStep_get_ne _ _ _ _ hne]

/-- A value whose string form is absent from its column's stored mapping
is encoded as the sentinel `-1`. -/
theorem encode_categorical_features_unknown
    (mappings : List (String × List (String × ℤ)))
    (acc : List (String × Value)) (col : String)
    (m : List (String × ℤ)) (v : Value)
    (hnd : (mappings.map Prod.fst).Nodup)
    (hm : alistGet mappings col = some m)
    (hv : alistGet acc col = some v)
    (hlook : alistGet m (pyStr v) = none) :
    alistGet (encode_categorical_features acc mappings) col =
      some (Value.int (-1)) := by
  induction mappings generalizing acc with
  | nil => cases hm
  | cons cm rest ih =>
    obtain ⟨c, mm⟩ := cm
    simp only [List.map_cons, List.nodup_cons] at hnd
    have hstep : encode_categorical_features acc ((c, mm) :: rest) =
        encode_categorical_features (encodeStep acc (c, mm)) rest := rfl
    by_cases hc : c = col
    · subst hc
      have h0 : alistGet ((c, mm) :: rest) c = some mm := by simp [alistGet]
      rw [h0] at hm
      have hmm : mm = m := Option.some.inj hm
      subst hmm
      rw [hstep, encode_categorical_features_notkey rest _ c hnd.1]
      exact encodeStep_get_unknown acc c mm v hv hlook
    · have hm' : alistGet rest col = some m := by
        have h0 : alistGet ((c, mm) :: rest) col = alistGet rest col := by
          simp [alistGet, hc]
        rw [h0] at hm
        exact hm
      rw [hstep]
      refine ih _ hnd.2 hm' ?_
      rw [encodeStep_get_ne _ _ _ _ hc, hv]

/-- Left-to-right error propagation of the vector-building loop: with
every earlier column succeeding, the first failing column's error is the
result. -/
theorem buildVector_first_error (features : List (String × Value))
    (pre post : List String) (col : String) (e : String)
    (hok : ∀ c ∈ pre, ∃ q, prepareValue features c = .ok q)
    (herr : prepareValue features col = .error e) :
    buildVector features (pre ++ col :: post) = .error e := by
  induction pre with
  | nil =>
    simp only [List.nil_append, buildVector, herr]
  | cons c cs ih =>
    obtain ⟨q, hq⟩ := hok c (List.mem_cons_self c cs)
    have htail := ih (fun c' hc' => hok c' (List.mem_cons_of_mem c hc'))
    simp only [List.cons_append, buildVector, hq, List.append_eq, htail]

/-- C5: during the input transform, a categorical column's raw value whose
string form is absent from `categorical_mappings[column]` is encoded as
the sentinel `-1` and never causes an error; a column without a stored
mapping keeps its raw value; a numeric raw value that cannot be coerced
to a number fails with the error naming the column and the value, raised
at the first failing column; concretely, `{"age": 30, "city": "Chicago"}`
against the mapping `{"city": {"NYC": 0, "LA": 1}}` encodes `city` as
`-1` and succeeds with the vector `[30, -1]`. -/
theorem categorical_unknown_encoded_as_minus_one :
    (∀ (mappings : List (String × List (String × ℤ)))
        (features : List (String × Value)) (col : String)
        (m : List (String × ℤ)) (v : Value),
      (mappings.map Prod.fst).Nodup →
      alistGet mappings col = some m →
      alistGet features col = some v →
      alistGet m (pyStr v) = none →
      alistGet (encode_categorical_features features mappings) col =
        some (Value.int (-1))) ∧
    (∀ (mappings : List (String × List (String × ℤ)))
        (features : List (String × Value)) (col : String),
      col ∉ mappings.map Prod.fst →
      alistGet (encode_categorical_features features mappings) col =
        alistGet features col) ∧
    (∀ (features : List (String × Value)) (col s : String),
      alistGet features col = some (Value.str s) →
      pyFloat s = none →
      prepareValue features col =
        .error ("Cannot convert '" ++ s ++ "' to number for feature '" ++
          col ++ "'")) ∧
    (∀ (features : List (String × Value)) (pre post : List String)
        (col e : String),
      (∀ c ∈ pre, ∃ q, prepareValue features c = .ok q) →
      prepareValue features col = .error e →
      buildVector features (pre ++ col :: post) = .error e) ∧
    prepare_input [("age", Value.int 30), ("city", Value.str "Chicago")]
        ["age", "city"]
        ⟨"tensor(float)", fun _ => (OutVal.int 0, none)⟩
        (some { feature_columns := ["age", "city"],
                feature_types := [("age", "numeric"), ("city", "categorical")],
                categorical_mappings := [("city", [("NYC", 0), ("LA", 1)])] }) =
      .ok ⟨true, [((30 : ℤ) : ℚ), ((-1 : ℤ) : ℚ)]⟩ := by
  refine ⟨?_, ?_, ?_, buildVector_first_error, ?_⟩
  · intro mappings features col m v hnd hm hv hlook
    exact encode_categorical_features_unknown mappings features col m v hnd hm hv hlook
  · intro mappings features col h
    exact encode_categorical_features_notkey mappings features col h
  · intro features col s h1 h2
    simp [prepareValue, h1, h2]
  · rfl

/-- Witness for C5: the general conjuncts applied at the spec's concrete
scenario — unknown `"Chicago"` becomes `-1`, the mapping-free column
`"age"` keeps its value, and the non-coercible `"abc"` for a numeric
feature produces the error naming column and value, both through
`prepareValue` and through the full vector-building loop. -/
theorem categorical_unknown_encoded_as_minus_one_witness :
    alistGet (encode_categorical_features
        [("age", Value.int 30), ("city", Value.str "Chicago")]
        [("city", [("NYC", 0), ("LA", 1)])]) "city" =
      some (Value.int (-1)) ∧
    alistGet (encode_categorical_features
        [("age", Value.int 30), ("city", Value.str "Chicago")]
        [("city", [("NYC", 0), ("LA", 1)])]) "age" =
      some (Value.int 30) ∧
    prepareValue [("x", Value.str "abc")] "x" =
      .error "Cannot convert 'abc' to number for feature 'x'" ∧
    buildVector [("a", Value.int 1), ("x", Value.str "abc")] ["a", "x"] =
      .error "Cannot convert 'abc' to number for feature 'x'" := by
  refine ⟨?_, ?_, ?_, ?_⟩
  · exact categorical_unknown_encoded_as_minus_one.1
      [("city", [("NYC", 0), ("LA", 1)])]
      [("age", Value.int 30), ("city", Value.str "Chicago")]
      "city" [("NYC", 0), ("LA", 1)] (Value.str "Chicago")
      (by decide) (by decide) (by decide) (by decide)
  · have h := categorical_unknown_encoded_as_minus_one.2.1
      [("city", [("NYC", 0), ("LA", 1)])]
      [("age", Value.int 30), ("city", Value.str "Chicago")]
      "age" (by decide)
    rw [h]
    rfl
  · exact categorical_unknown_encoded_as_minus_one.2.2.1
      [("x", Value.str "abc")] "x" "abc" rfl rfl
  · exact categorical_unknown_encoded_as_minus_one.2.2.2.1
      [("a", Value.int 1), ("x", Value.str "abc")] ["a"] [] "x"
      "Cannot convert 'abc' to number for feature 'x'"
      (fun c hc => by
        cases hc with
        | head => exact ⟨((1 : ℤ) : ℚ), rfl⟩
        | tail _ h => cases h)
      rfl

/-- C3 counterexample: a deployed classification job whose Contract holds
`target_mapping = {"0": "cat", "1": "dog"}` and whose model outputs the
raw class `0` returns the internal code `0` as the prediction, not the
label `"cat"` — the prediction path never consults `target_mapping`. -/
theorem classification_returns_internal_code :
    (make_prediction
      (fun _ => some
        { deployed := true, onnx_model_path := some "s3://b/m.onnx",
          preprocessing_info := some
            { feature_columns := ["age"],
              target_mapping := some [("0", "cat"), ("1", "dog")] },
          problem_type := some "classification" })
      (fun _ => ⟨"tensor(float)", fun _ => (OutVal.int 0, none)⟩)
      [] "job-1" [("age", Value.int 30)]).1 =
      .ok ⟨"job-1", PredOut.int 0, none, none, "unknown"⟩ ∧
    PredOut.int 0 ≠ PredOut.str "cat" :=
  ⟨rfl, by decide⟩

/-- C3 (amended): the prediction response is entirely independent of the
Contract's `target_mapping` — for a classification model the raw class
output is returned converted to int/float/string (the internal target
encoding), never translated back to the original label. -/
theorem prediction_independent_of_target_mapping
    (loader : String → Session) (cache : ModelCache) (job_id : String)
    (features : List (String × Value)) (job : Job) (pi : PreprocessingInfo)
    (tm : Option (List (String × String))) :
    make_prediction
        (fun _ => some
          { job with
            preprocessing_info := some { pi with target_mapping := tm } })
        loader cache job_id features =
      make_prediction
        (fun _ => some
          { job with
            preprocessing_info := some { pi with target_mapping := none } })
        loader cache job_id features := rfl

/-! ### Useless-column detection (`backend/training/preprocessor.py`)

`detect_useless_columns` combines two feature-engine detectors (constant
and duplicate columns) with the custom identifier and high-cardinality
checks. The feature-engine detectors are external library code, modelled
from their documented behaviour. -/

/-- Suffix test on character lists. -/
def isSuffixChars (pat s : List Char) : Bool :=
  isPrefixChars pat.reverse s.reverse

/-- Does `pre` occur in `s` with `post` occurring at or after its end?
This is `re.search("pre.*post", s)`. -/
def containsThen (pre post s : List Char) : Bool :=
  match afterFirst pre s with
  | some r => isSubstrChars post r
  | none => false

/-- The 16 `ID_PATTERNS` regexes of preprocessor.py lines 16–33, compiled
to explicit tests on the lowercased, stripped column name. -/
def idNameMatch (t : List Char) : Bool :=
  (t == "id".data) ||
  isSuffixChars "_id".data t ||
  isPrefixChars "id_".data t ||
  isSubstrChars "_id_".data t ||
  (t == "uuid".data) ||
  (t == "guid".data) ||
  containsThen "order".data "id".data t ||
  containsThen "customer".data "id".data t ||
  containsThen "user".data "id".data t ||
  containsThen "transaction".data "id".data t ||
  containsThen "product".data "id".data t ||
  containsThen "session".data "id".data t ||
  (t == "index".data) ||
  (isPrefixChars "row".data t && isSubstrChars "num".data (t.drop 3)) ||
  isPrefixChars "serial".data t ||
  (isPrefixChars "record".data t && isSubstrChars "id".data (t.drop 6))

/-- Are consecutive sorted values exactly 1 apart
(`(sorted_vals.diff().dropna() == 1).all()`)? -/
def chainSucc : List ℤ → Bool
  | [] => true
  | [_] => true
  | a :: b :: r => (b - a == 1) && chainSucc (b :: r)

/-- The alphanumeric-code shape `^[A-Za-z0-9\-_]+$`. -/
def isCodeShape (s : String) : Bool :=
  !s.data.isEmpty &&
    s.data.all (fun c => c.isAlpha || c.isDigit || c == '-' || c == '_')

/-- Embeds `AutoPreprocessor.detect_id_column` (preprocessor.py lines
44–83): name patterns first; then all-distinct sequential integer data;
then near-unique string data in code shape. -/
def detect_id_column (col_name : String) (s : Column) : Bool :=
  let t := stripChars (lowerChars col_name.data)
  if idNameMatch t then true
  else
    match s with
    | .ints v =>
      decide (v.dedup.length = v.length) &&
        chainSucc (List.insertionSort (fun a b : ℤ => a ≤ b) v)
    | .floats _ => false
    | .strs v =>
      let p := v.filterMap id
      decide (((p.dedup.length : ℚ) / (v.length : ℚ)) > 0.95) &&
        (let sample := p.take 100
         !sample.isEmpty &&
           decide ((((sample.filter isCodeShape).length : ℚ) /
             (sample.length : ℚ)) > 0.9))

/-- Embeds `AutoPreprocessor.detect_constant_column` (preprocessor.py
lines 85–87). -/
def detect_constant_column (s : Column) : Bool :=
  decide (s.nunique ≤ 1)

/-- Embeds `AutoPreprocessor.detect_high_cardinality_categorical`
(preprocessor.py lines 89–101). -/
def detect_high_cardinality_categorical (s : Column) (threshold : ℚ) : Bool :=
  match s with
  | .strs v => decide ((((Column.strs v).nunique : ℚ) / (v.length : ℚ)) > threshold)
  | _ => false

/-- Number of non-absent values of a column. -/
def Column.presentCount : Column → ℕ
  | .ints v => v.length
  | .floats v => (v.filterMap id).length
  | .strs v => (v.filterMap id).length

/-- Count of the most frequent element. -/
def maxCountOf {α : Type} [DecidableEq α] (l : List α) : ℕ :=
  (l.dedup.map (fun a => l.count a)).foldr max 0

/-- Modelled from the documented behaviour of feature-engine
`DropConstantFeatures(tol=0.98, missing_values='ignore')`: a column is
flagged when its most frequent non-absent value accounts for at least 98%
of the non-absent observations. -/
def feConstant : Column → Bool
  | .ints v =>
    decide (v ≠ [] ∧ (0.98 : ℚ) ≤ (maxCountOf v : ℚ) / (v.length : ℚ))
  | .floats v =>
    let p := v.filterMap id
    decide (p ≠ [] ∧ (0.98 : ℚ) ≤ (maxCountOf p : ℚ) / (p.length : ℚ))
  | .strs v =>
    let p := v.filterMap id
    decide (p ≠ [] ∧ (0.98 : ℚ) ≤ (maxCountOf p : ℚ) / (p.length : ℚ))

/-- Modelled from the documented behaviour of feature-engine
`DropDuplicateFeatures`: scanning columns left to right, a column whose
values equal those of an earlier retained column is flagged (pandas
`equals`, under which absent values compare equal). -/
def feDuplicatesAux : List Column → Table → List String
  | _, [] => []
  | seen, nc :: rest =>
    if nc.2 ∈ seen then nc.1 :: feDuplicatesAux seen rest
    else feDuplicatesAux (nc.2 :: seen) rest

/-- Embeds `detect_useless_columns_with_feature_engine` (preprocessor.py
lines 103–136): the target is dropped first; the constant detector runs,
then the duplicate detector on the remaining columns when more than one
remains. The library raises inside the `try` — and the source catches and
logs it, flagging no feature-engine column at all — in three situations:
a frame with no columns, a column with no present values, and
`DropConstantFeatures.fit` finding every column of the frame
(quasi-)constant, where it raises "The resulting dataframe will have no
columns after dropping all existing variables". (`DropDuplicateFeatures`
keeps the first column of each duplicate group, so it can never trigger
that last error.) -/
def AutoPreprocessor.detect_useless_columns_with_feature_engine
    (p : AutoPreprocessor) (df : Table) : List String :=
  let X := df.filter (fun nc => !(nc.1 == p.target_column))
  if X.isEmpty || X.any (fun nc => nc.2.presentCount == 0) then []
  else if (X.filter (fun nc => feConstant nc.2)).length = X.length then []
  else
    let constant_cols := (X.filter (fun nc => feConstant nc.2)).map Prod.fst
    let Xnc := X.filter (fun nc => !(constant_cols.contains nc.1))
    let dup_cols := if 1 < Xnc.length then feDuplicatesAux [] Xnc else []
    constant_cols ++ dup_cols.filter (fun c => !(constant_cols.contains c))

/-- One iteration of the custom loop of `detect_useless_columns`
(preprocessor.py lines 155–173): skip columns already flagged and the
target; flag identifier columns and high-cardinality categoricals. -/
def customStep (p : AutoPreprocessor) (acc : List String)
    (nc : String × Column) : List String :=
  if nc.1 ∈ acc ∨ nc.1 = p.target_column then acc
  else if detect_id_column nc.1 nc.2 then acc ++ [nc.1]
  else if nc.2.isObject && detect_high_cardinality_categorical nc.2 0.5 then
    acc ++ [nc.1]
  else acc

/-- Embeds `AutoPreprocessor.detect_useless_columns` (preprocessor.py
lines 138–183): feature-engine detection first, then the custom loop over
all columns; the result is recorded as `dropped_columns`. -/
def AutoPreprocessor.detect_useless_columns (p : AutoPreprocessor)
    (df : Table) : AutoPreprocessor × List String :=
  let fe_cols := p.detect_useless_columns_with_feature_engine df
  let useless := df.foldl (customStep p) fe_cols
  ({ p with dropped_columns := useless }, useless)

/-! ### Claim C9 about `detect_useless_columns` -/

/-- Membership after one custom-loop iteration. -/
theorem mem_customStep (p : AutoPreprocessor) (acc : List String)
    (nc : String × Column) (col : String) :
    col ∈ customStep p acc nc ↔
      col ∈ acc ∨
        (nc.1 = col ∧ col ≠ p.target_column ∧
          (detect_id_column nc.1 nc.2 ||
            (nc.2.isObject && detect_high_cardinality_categorical nc.2 0.5)) = true) := by
  unfold customStep
  by_cases h1 : nc.1 ∈ acc ∨ nc.1 = p.target_column
  · rw [if_pos h1]
    constructor
    · exact Or.inl
    · rintro (h | ⟨rfl, hne, _⟩)
      · exact h
      · rcases h1 with h1 | h1
        · exact h1
        · exact absurd h1 hne
  · rw [if_neg h1]
    push_neg at h1
    by_cases h2 : detect_id_column nc.1 nc.2 = true
    · rw [if_pos h2]
      simp only [List.mem_append, List.mem_singleton]
      constructor
      · rintro (h | rfl)
        · exact Or.inl h
        · exact Or.inr ⟨rfl, h1.2, by simp [h2]⟩
      · rintro (h | ⟨rfl, _, _⟩)
        · exact Or.inl h
        · exact Or.inr rfl
    · rw [if_neg h2]
      by_cases h3 : (nc.2.isObject && detect_high_cardinality_categorical nc.2 0.5) = true
      · rw [if_pos h3]
        simp only [List.mem_append, List.mem_singleton]
        constructor
        · rintro (h | rfl)
          · exact Or.inl h
          · exact Or.inr ⟨rfl, h1.2, by simp [h3]⟩
        · rintro (h | ⟨rfl, _, _⟩)
          · exact Or.inl h
          · exact Or.inr rfl
      · rw [if_neg h3]
        constructor
        · exact Or.inl
        · rintro (h | ⟨rfl, hne, hflag⟩)
          · exact h
          · rcases Bool.or_eq_true_iff.mp hflag with h | h
            · exact absurd h h2
            · exact absurd h h3

/-- Membership after the whole custom loop. -/
theorem mem_foldl_customStep (p : AutoPreprocessor) (df : Table)
    (acc : List String) (col : String) :
    col ∈ df.foldl (customStep p) acc ↔
      col ∈ acc ∨
        ∃ c : Column, (col, c) ∈ df ∧ col ≠ p.target_column ∧
          (detect_id_column col c ||
            (c.isObject && detect_high_cardinality_categorical c 0.5)) = true := by
  induction df generalizing acc with
  | nil => simp
  | cons nc rest ih =>
    obtain ⟨n, c⟩ := nc
    rw [List.foldl_cons, ih, mem_customStep]
    constructor
    · rintro ((h | ⟨rfl, hne, hflag⟩) | ⟨c', hmem, hne, hflag⟩)
      · exact Or.inl h
      · exact Or.inr ⟨c, List.mem_cons_self _ _, hne, hflag⟩
      · exact Or.inr ⟨c', List.mem_cons_of_mem _ hmem, hne, hflag⟩
    · rintro (h | ⟨c', hmem, hne, hflag⟩)
      · exact Or.inl (Or.inl h)
      · rcases List.mem_cons.mp hmem with heq | hmem'
        · obtain ⟨h1, h2⟩ := Prod.mk.injEq .. ▸ heq
          subst h1
          subst h2
          exact Or.inl (Or.inr ⟨rfl, hne, hflag⟩)
        · exact Or.inr ⟨c', hmem', hne, hflag⟩

/-- Every column flagged by the duplicate scan occurs in the frame. -/
theorem feDuplicatesAux_subset (X : Table) (seen : List Column) (col : String)
    (h : col ∈ feDuplicatesAux seen X) : col ∈ X.map Prod.fst := by
  induction X generalizing seen with
  | nil => cases h
  | cons nc rest ih =>
    simp only [feDuplicatesAux] at h
    split at h
    · rcases List.mem_cons.mp h with rfl | h2
      · simp
      · simp [ih _ h2]
    · simp [ih _ h]

/-- Every feature-engine-flagged column is a non-target column of the
frame. -/
theorem fe_mem_ne_target (p : AutoPreprocessor) (df : Table) (col : String)
    (h : col ∈ p.detect_useless_columns_with_feature_engine df) :
    col ≠ p.target_column := by
  have hX : ∀ nc ∈ df.filter (fun nc => !(nc.1 == p.target_column)),
      nc.1 ≠ p.target_column := by
    intro nc hmem
    have h2 := (List.mem_filter.mp hmem).2
    simpa using h2
  simp only [AutoPreprocessor.detect_useless_columns_with_feature_engine] at h
  split at h
  · cases h
  · split at h
    · cases h
    · rw [List.mem_append] at h
      rcases h with h | h
      · rw [List.mem_map] at h
        obtain ⟨nc, hmem, rfl⟩ := h
        exact hX nc (List.mem_filter.mp hmem).1
      · rw [List.mem_filter] at h
        have h1 := h.1
        split at h1
        · have h2 := feDuplicatesAux_subset _ _ _ h1
          rw [List.mem_map] at h2
          obtain ⟨nc, hmem, rfl⟩ := h2
          exact hX nc (List.mem_filter.mp hmem).1
        · cases h1

/-- C9 counterexample: with a duplicated non-target column (two identical
integer columns `a` and `b`), `detect_useless_columns` returns `b` even
though `b` is neither an identifier, nor a constant, nor a
high-cardinality categorical — the claimed three-way characterization is
false because feature-engine also drops duplicate columns. -/
theorem detect_useless_includes_duplicate :
    ("b" ∈ ((AutoPreprocessor.mk "target" [] [] [] [] []).detect_useless_columns
        [("a", Column.ints [1, 2, 1, 2, 1]),
         ("b", Column.ints [1, 2, 1, 2, 1]),
         ("target", Column.ints [0, 1, 0, 1, 0])]).2) ∧
    detect_id_column "b" (Column.ints [1, 2, 1, 2, 1]) = false ∧
    detect_constant_column (Column.ints [1, 2, 1, 2, 1]) = false ∧
    detect_high_cardinality_categorical (Column.ints [1, 2, 1, 2, 1]) 0.5 = false := by
  have hfc : feConstant (Column.ints [1, 2, 1, 2, 1]) = false := by
    simp only [feConstant]
    rw [decide_eq_false]
    rintro ⟨-, hle⟩
    rw [show maxCountOf ([1, 2, 1, 2, 1] : List ℤ) = 3 from rfl] at hle
    norm_num at hle
  have hfe : (AutoPreprocessor.mk "target" [] [] [] [] []).detect_useless_columns_with_feature_engine
      [("a", Column.ints [1, 2, 1, 2, 1]),
       ("b", Column.ints [1, 2, 1, 2, 1]),
       ("target", Column.ints [0, 1, 0, 1, 0])] = ["b"] := by
    simp only [AutoPreprocessor.detect_useless_columns_with_feature_engine]
    simp [hfc, feDuplicatesAux, Column.presentCount]
  have hid : detect_id_column "b" (Column.ints [1, 2, 1, 2, 1]) = false := by decide
  have hida : detect_id_column "a" (Column.ints [1, 2, 1, 2, 1]) = false := by decide
  refine ⟨?_, hid, by decide, rfl⟩
  show "b" ∈ ([("a", Column.ints [1, 2, 1, 2, 1]),
      ("b", Column.ints [1, 2, 1, 2, 1]),
      ("target", Column.ints [0, 1, 0, 1, 0])] : Table).foldl
      (customStep (AutoPreprocessor.mk "target" [] [] [] [] []))
      ((AutoPreprocessor.mk "target" [] [] [] [] []).detect_useless_columns_with_feature_engine
        [("a", Column.ints [1, 2, 1, 2, 1]),
         ("b", Column.ints [1, 2, 1, 2, 1]),
         ("target", Column.ints [0, 1, 0, 1, 0])])
  rw [hfe, mem_foldl_customStep]
  exact Or.inl (List.mem_singleton.mpr rfl)

/-- C9 (amended): the set returned by `detect_useless_columns` is recorded
as `dropped_columns`; it never contains the target column; and a column
belongs to it exactly when the feature-engine stage flags it (constant or
quasi-constant at 98%, or a duplicate of an earlier column, target
excluded) or it is a non-target column flagged as an identifier or as a
high-cardinality categorical. -/
theorem detect_useless_columns_characterization (p : AutoPreprocessor)
    (df : Table) :
    ((p.detect_useless_columns df).1.dropped_columns =
      (p.detect_useless_columns df).2) ∧
    (p.target_column ∉ (p.detect_useless_columns df).2) ∧
    (∀ col : String,
      col ∈ (p.detect_useless_columns df).2 ↔
        col ∈ p.detect_useless_columns_with_feature_engine df ∨
          ∃ c : Column, (col, c) ∈ df ∧ col ≠ p.target_column ∧
            (detect_id_column col c ||
              (c.isObject && detect_high_cardinality_categorical c 0.5)) = true) := by
  refine ⟨rfl, ?_, ?_⟩
  · intro hmem
    have h := (mem_foldl_customStep p df _ p.target_column).mp hmem
    rcases h with h | ⟨c, _, hne, _⟩
    · exact fe_mem_ne_target p df _ h rfl
    · exact hne rfl
  · intro col
    exact mem_foldl_customStep p df _ col

/-- Witness for C9 at a concrete frame: the characterization applied to
the duplicated-column table — membership of the duplicate `b` comes from
the feature-engine disjunct. -/
theorem detect_useless_columns_characterization_witness :
    "target" ∉ ((AutoPreprocessor.mk "target" [] [] [] [] []).detect_useless_columns
        [("a", Column.ints [1, 2, 1, 2, 1]),
         ("b", Column.ints [1, 2, 1, 2, 1]),
         ("target", Column.ints [0, 1, 0, 1, 0])]).2 :=
  (detect_useless_columns_characterization
    (AutoPreprocessor.mk "target" [] [] [] [] [])
    [("a", Column.ints [1, 2, 1, 2, 1]),
     ("b", Column.ints [1, 2, 1, 2, 1]),
     ("target", Column.ints [0, 1, 0, 1, 0])]).2.1

/-! ### Missing values, problem type and the split (`preprocess`) -/

/-- Pandas `Series.median()` of the present values. -/
def medianQ (l : List ℚ) : ℚ :=
  let s := List.insertionSort (fun a b : ℚ => a ≤ b) l
  if l.length % 2 = 1 then s.getD (l.length / 2) 0
  else (s.getD (l.length / 2 - 1) 0 + s.getD (l.length / 2) 0) / 2

/-- Pandas `Series.mode()[0]` of the present values: the smallest (in sort
order) of the most frequent values. Only consulted for nonempty input. -/
def modeStr (p : List String) : String :=
  let mx := maxCountOf p
  (List.insertionSort strLeP (p.dedup.filter (fun a => p.count a == mx))).headD
    "Unknown"

/-- Per-column treatment of `handle_missing_values` (preprocessor.py lines
205–221): numeric absent values become the column median (an all-absent
numeric column stays absent — its median is itself absent); categorical
absent values become the mode, or `"Unknown"` when nothing is present. -/
def fillColumn : Column → Column
  | .ints v => .ints v
  | .floats v =>
    if v.any (fun x => x.isNone) then
      let p := v.filterMap id
      if p.isEmpty then .floats v
      else .floats (v.map (fun x => some (x.getD (medianQ p))))
    else .floats v
  | .strs v =>
    if v.any (fun x => x.isNone) then
      let p := v.filterMap id
      let m := if p.isEmpty then "Unknown" else modeStr p
      .strs (v.map (fun x => some (x.getD m)))
    else .strs v

/-- Embeds `AutoPreprocessor.handle_missing_values` (non-mutating: a new
table is returned). -/
def handle_missing_values (df : Table) : Table :=
  df.map (fun nc => (nc.1, fillColumn nc.2))

/-- Embeds `AutoPreprocessor.detect_problem_type` (preprocessor.py lines
185–203) — the variant `preprocess` calls. Unlike the utils version there
is no integer-likeness test: a numeric target is classification when the
distinct ratio is below 0.05 or there are fewer than 20 distinct values. -/
def AutoPreprocessor.detect_problem_type (y : Column) : String :=
  if y.length = 0 then "classification"
  else if y.isNumeric then
    if ((y.nunique : ℚ) / (y.length : ℚ)) < 0.05 ∨ y.nunique < 20 then
      "classification"
    else "regression"
  else "classification"

/-- Failures `preprocess` can propagate: the `KeyError` of `df[target]`
and the `ValueError`s of sklearn `train_test_split`. -/
inductive PreprocessError where
  | keyError (k : String)
  | valueError (msg : String)
deriving DecidableEq

/-- First `n` rows of a column. -/
def Column.takeRows (n : ℕ) : Column → Column
  | .ints v => .ints (v.take n)
  | .floats v => .floats (v.take n)
  | .strs v => .strs (v.take n)

/-- Rows of a column after the first `n`. -/
def Column.dropRows (n : ℕ) : Column → Column
  | .ints v => .ints (v.drop n)
  | .floats v => .floats (v.drop n)
  | .strs v => .strs (v.drop n)

/-- Row-wise prefix of a table. -/
def tableTakeRows (n : ℕ) (df : Table) : Table :=
  df.map (fun nc => (nc.1, nc.2.takeRows n))

/-- Row-wise suffix of a table. -/
def tableDropRows (n : ℕ) (df : Table) : Table :=
  df.map (fun nc => (nc.1, nc.2.dropRows n))

/-- Sizes of the stratification classes (distinct present values). -/
def classCounts : Column → List ℕ
  | .ints v => v.dedup.map (fun a => v.count a)
  | .floats v => ((v.filterMap id).dedup).map (fun a => (v.filterMap id).count a)
  | .strs v => ((v.filterMap id).dedup).map (fun a => (v.filterMap id).count a)

/-- Modelled from sklearn `train_test_split(..., random_state=42)`: the
partition sizes are `n_test = ⌈n·test_size⌉` and `n_train = n − n_test`,
and the documented error conditions are raised — an empty input, an empty
resulting train set, and, under stratification, a class with fewer than
two members or a partition smaller than the number of classes. Which rows
land in which partition is a deterministic stand-in for the seeded
shuffle; no claim settled here depends on the row selection, only on
whether the call raises and on the partition shapes. -/
def train_test_split (X : Table) (y : Column) (test_size : ℚ)
    (stratify : Bool) :
    Except PreprocessError (Table × Table × Column × Column) :=
  let n := y.length
  let n_test := (⌈(n : ℚ) * test_size⌉).toNat
  let n_train := n - n_test
  if n = 0 then .error (.valueError "n_samples=0")
  else if n_train = 0 then
    .error (.valueError "the resulting train set will be empty")
  else if stratify && (classCounts y).any (fun c => decide (c < 2)) then
    .error (.valueError "The least populated class in y has only 1 member")
  else if stratify && (decide (n_test < y.nunique) || decide (n_train < y.nunique)) then
    .error (.valueError "should be greater or equal to the number of classes")
  else
    .ok (tableTakeRows n_train X, tableDropRows n_train X,
      y.takeRows n_train, y.dropRows n_train)

/-- Body of `preprocess` once the target column has been found: useless-
column drop, problem-type detection, missing value handling, feature-order
recording, categorical encoding, target encoding for non-numeric
classification targets, and the final train/test split (stratified exactly
when the problem is classification). -/
def preprocessBody (p : AutoPreprocessor) (df : Table) (test_size : ℚ)
    (y : Column) :
    Except PreprocessError
      (AutoPreprocessor × Table × Table × Column × Column × String) :=
    let scan := p.detect_useless_columns df
    let problem_type := AutoPreprocessor.detect_problem_type y
    let X2 := handle_missing_values
      ((df.filter (fun nc => !(nc.1 == p.target_column))).filter
        (fun nc => !(scan.2.contains nc.1)))
    let p2 := { scan.1 with
      feature_columns := X2.map Prod.fst,
      numeric_columns :=
        (X2.filter (fun nc : String × Column => nc.2.isNumeric)).map Prod.fst }
    let enc := p2.encode_categorical X2 true
    let tgt : AutoPreprocessor × Column :=
      if problem_type = "classification" then
        match y with
        | Column.strs vals =>
          ({ enc.1 with
              label_encoders := alistUpd enc.1.label_encoders "__target__" (fitClasses vals) },
            Column.ints (fitEncodeCol vals))
        | yc => (enc.1, yc)
      else (enc.1, y)
    match train_test_split enc.2 tgt.2 test_size
        (problem_type = "classification") with
    | .error e => .error e
    | .ok r => .ok (tgt.1, r.1, r.2.1, r.2.2.1, r.2.2.2, problem_type)

/-- Embeds `AutoPreprocessor.preprocess` (preprocessor.py lines 245–295):
`df[target]` raises a `KeyError` when the target column is absent;
otherwise the pipeline body runs. -/
def AutoPreprocessor.preprocess (p : AutoPreprocessor) (df : Table)
    (test_size : ℚ) :
    Except PreprocessError
      (AutoPreprocessor × Table × Table × Column × Column × String) :=
  match alistGet df p.target_column with
  | none => .error (.keyError p.target_column)
  | some y => preprocessBody p df test_size y

/-! ### Claim C8 about `preprocess` -/

/-- Unfolding of `preprocess` when the target column is present. -/
theorem preprocess_some (p : AutoPreprocessor) (df : Table) (ts : ℚ)
    (y : Column) (hy : alistGet df p.target_column = some y) :
    p.preprocess df ts = preprocessBody p df ts y := by
  unfold AutoPreprocessor.preprocess
  split
  · next heq =>
      rw [hy] at heq
      cases heq
  · next y2 heq =>
      rw [hy] at heq
      injection heq with h
      subst h
      rfl

/-- A numeric target with fewer than 20 distinct values is classification
for the preprocessor's detector. -/
theorem detect_problem_type_of_lt20 (y : Column) (h0 : ¬ y.length = 0)
    (hnum : y.isNumeric = true) (h : y.nunique < 20) :
    AutoPreprocessor.detect_problem_type y = "classification" := by
  unfold AutoPreprocessor.detect_problem_type
  rw [if_neg h0, if_pos hnum, if_pos (Or.inr h)]

/-- The preprocessor used in the concrete `preprocess` scenarios. -/
def pTarget : AutoPreprocessor := ⟨"target", [], [], [], [], []⟩

/-- Single-class target, one legitimate numeric feature. -/
def dfSingleClass : Table :=
  [("feature", Column.ints [10, 20, 10, 30, 20, 10, 20, 10, 30, 20]),
   ("target", Column.ints [0, 0, 0, 0, 0, 0, 0, 0, 0, 0])]

/-- All-numeric table: an int feature and a float feature. -/
def dfAllNumeric : Table :=
  [("a", Column.ints [1, 3, 2, 5, 4, 1, 3, 2, 5, 4]),
   ("b", Column.floats [some 1, some 2, some 1, some 2, some 1, some 2,
      some 1, some 2, some 1, some 2]),
   ("target", Column.ints [0, 1, 0, 1, 0, 1, 0, 1, 0, 1])]

/-- The alternating color values of the all-categorical table. -/
def colorVals : List (Option String) :=
  [some "red", some "blue", some "red", some "blue", some "red",
   some "blue", some "red", some "blue", some "red", some "blue"]

/-- The alternating yes/no target of the all-categorical table. -/
def yesNoVals : List (Option String) :=
  [some "yes", some "no", some "yes", some "no", some "yes",
   some "no", some "yes", some "no", some "yes", some "no"]

/-- All-categorical table: a string feature and a string target. -/
def dfAllCategorical : Table :=
  [("color", Column.strs colorVals), ("target", Column.strs yesNoVals)]

/-- A table whose only feature column is a name-matched identifier: the
custom detector drops it, so zero feature columns remain. -/
def dfZeroFeatures : Table :=
  [("user_id", Column.ints [1, 2, 3, 4, 5, 6, 7, 8, 9, 10]),
   ("target", Column.ints [0, 1, 0, 1, 0, 1, 0, 1, 0, 1])]

/-- A table whose only feature column is constant: feature-engine's
constant detector would drop every column of the frame, so its fit raises
internally, the source catches the error, and the column is kept. -/
def dfConstantOnly : Table :=
  [("constant", Column.ints [1, 1, 1, 1, 1, 1, 1, 1, 1, 1]),
   ("target", Column.ints [0, 1, 0, 1, 0, 1, 0, 1, 0, 1])]

deriving instance DecidableEq for Except

/-- Evaluation fact: the all-one column is (quasi-)constant for
feature-engine. -/
theorem feConstant_ones :
    feConstant (Column.ints [1, 1, 1, 1, 1, 1, 1, 1, 1, 1]) = true := by
  simp only [feConstant]
  rw [decide_eq_true]
  refine ⟨by decide, ?_⟩
  rw [show maxCountOf ([1, 1, 1, 1, 1, 1, 1, 1, 1, 1] : List ℤ) = 10 from rfl,
    show ([1, 1, 1, 1, 1, 1, 1, 1, 1, 1] : List ℤ).length = 10 from rfl]
  norm_num

/-- Evaluation fact: the identifier column is not quasi-constant. -/
theorem feConstant_userId :
    feConstant (Column.ints [1, 2, 3, 4, 5, 6, 7, 8, 9, 10]) = false := by
  simp only [feConstant]
  rw [decide_eq_false]
  rintro ⟨-, hle⟩
  rw [show maxCountOf ([1, 2, 3, 4, 5, 6, 7, 8, 9, 10] : List ℤ) = 1 from rfl,
    show ([1, 2, 3, 4, 5, 6, 7, 8, 9, 10] : List ℤ).length = 10 from rfl] at hle
  norm_num at hle

/-- Evaluation fact: the feature-engine stage flags nothing on the
zero-features table (its single column is neither degenerate nor
quasi-constant, and there is nothing to deduplicate). -/
theorem fe_dfZeroFeatures :
    pTarget.detect_useless_columns_with_feature_engine dfZeroFeatures = [] := by
  simp only [AutoPreprocessor.detect_useless_columns_with_feature_engine]
  simp [feConstant_userId, Column.presentCount, dfZeroFeatures, pTarget]

/-- Evaluation fact: `detect_useless_columns` drops exactly the
name-matched identifier on the zero-features table. -/
theorem useless_dfZeroFeatures :
    pTarget.detect_useless_columns dfZeroFeatures =
      (⟨"target", [], [], [], [], ["user_id"]⟩, ["user_id"]) := by
  simp only [AutoPreprocessor.detect_useless_columns]
  rw [fe_dfZeroFeatures]
  decide

/-- Evaluation fact: on the constant-only table, the constant detector
would drop every column of the frame, so feature-engine raises and the
source flags nothing. -/
theorem fe_dfConstantOnly :
    pTarget.detect_useless_columns_with_feature_engine dfConstantOnly = [] := by
  simp only [AutoPreprocessor.detect_useless_columns_with_feature_engine]
  simp [feConstant_ones, Column.presentCount, dfConstantOnly, pTarget]

/-- Evaluation fact: `detect_useless_columns` drops nothing on the
constant-only table — the custom detectors do not flag a constant numeric
column and the feature-engine stage was aborted by its own error. -/
theorem useless_dfConstantOnly :
    pTarget.detect_useless_columns dfConstantOnly =
      (⟨"target", [], [], [], [], []⟩, []) := by
  simp only [AutoPreprocessor.detect_useless_columns]
  rw [fe_dfConstantOnly]
  decide

/-- Evaluation fact: splitting the ten-row alternating target. -/
theorem split_alternating :
    train_test_split ([] : Table)
        (Column.ints [0, 1, 0, 1, 0, 1, 0, 1, 0, 1]) 0.2 true =
      .ok ([], [], Column.ints [0, 1, 0, 1, 0, 1, 0, 1], Column.ints [0, 1]) := by
  simp only [train_test_split]
  rw [show Column.length (Column.ints [0, 1, 0, 1, 0, 1, 0, 1, 0, 1]) = 10 from rfl]
  rw [show ((⌈((10 : ℕ) : ℚ) * (0.2 : ℚ)⌉).toNat) = 2 from by norm_num; rfl]
  decide

/-- Evaluation fact: on a table whose only feature column is a
name-matched identifier, `preprocess` returns successfully with zero
feature columns and empty feature tables. -/
theorem preprocess_zeroFeatures_eval :
    pTarget.preprocess dfZeroFeatures 0.2 =
      .ok (⟨"target", [], [], [], [], ["user_id"]⟩, [], [],
        Column.ints [0, 1, 0, 1, 0, 1, 0, 1], Column.ints [0, 1],
        "classification") := by
  rw [preprocess_some pTarget dfZeroFeatures 0.2
    (Column.ints [0, 1, 0, 1, 0, 1, 0, 1, 0, 1]) rfl]
  simp only [preprocessBody, useless_dfZeroFeatures]
  rw [detect_problem_type_of_lt20 (Column.ints [0, 1, 0, 1, 0, 1, 0, 1, 0, 1])
    (by decide) rfl (by decide)]
  simp [dfZeroFeatures, pTarget, handle_missing_values,
    AutoPreprocessor.encode_categorical, catColsOf, fitEncoders,
    split_alternating]

/-- Evaluation fact: splitting the constant-only table. -/
theorem split_constantOnly :
    train_test_split
        [("constant", Column.ints [1, 1, 1, 1, 1, 1, 1, 1, 1, 1])]
        (Column.ints [0, 1, 0, 1, 0, 1, 0, 1, 0, 1]) 0.2 true =
      .ok ([("constant", Column.ints [1, 1, 1, 1, 1, 1, 1, 1])],
        [("constant", Column.ints [1, 1])],
        Column.ints [0, 1, 0, 1, 0, 1, 0, 1], Column.ints [0, 1]) := by
  simp only [train_test_split]
  rw [show Column.length (Column.ints [0, 1, 0, 1, 0, 1, 0, 1, 0, 1]) = 10 from rfl]
  rw [show ((⌈((10 : ℕ) : ℚ) * (0.2 : ℚ)⌉).toNat) = 2 from by norm_num; rfl]
  decide

/-- Evaluation fact: on the constant-only table, `preprocess` keeps the
constant column (feature-engine's internal error was caught) and returns
successfully with one feature column. -/
theorem preprocess_constantOnly_eval :
    pTarget.preprocess dfConstantOnly 0.2 =
      .ok (⟨"target", [], ["constant"], ["constant"], [], []⟩,
        [("constant", Column.ints [1, 1, 1, 1, 1, 1, 1, 1])],
        [("constant", Column.ints [1, 1])],
        Column.ints [0, 1, 0, 1, 0, 1, 0, 1], Column.ints [0, 1],
        "classification") := by
  rw [preprocess_some pTarget dfConstantOnly 0.2
    (Column.ints [0, 1, 0, 1, 0, 1, 0, 1, 0, 1]) rfl]
  simp only [preprocessBody, useless_dfConstantOnly]
  rw [detect_problem_type_of_lt20 (Column.ints [0, 1, 0, 1, 0, 1, 0, 1, 0, 1])
    (by decide) rfl (by decide)]
  simp [dfConstantOnly, pTarget, handle_missing_values, fillColumn,
    AutoPreprocessor.encode_categorical, catColsOf, fitEncoders, encodeColFit,
    Column.isNumeric, Column.isObject, split_constantOnly]

/-- Evaluation fact: the repeated-values feature column is not
quasi-constant. -/
theorem feConstant_feature :
    feConstant (Column.ints [10, 20, 10, 30, 20, 10, 20, 10, 30, 20]) = false := by
  simp only [feConstant]
  rw [decide_eq_false]
  rintro ⟨-, hle⟩
  rw [show maxCountOf ([10, 20, 10, 30, 20, 10, 20, 10, 30, 20] : List ℤ) = 4 from rfl,
    show ([10, 20, 10, 30, 20, 10, 20, 10, 30, 20] : List ℤ).length = 10 from rfl] at hle
  norm_num at hle

/-- Evaluation fact: `detect_useless_columns` keeps the single-class
table intact. -/
theorem useless_dfSingleClass :
    pTarget.detect_useless_columns dfSingleClass =
      (⟨"target", [], [], [], [], []⟩, []) := by
  have hfe : pTarget.detect_useless_columns_with_feature_engine dfSingleClass = [] := by
    simp only [AutoPreprocessor.detect_useless_columns_with_feature_engine]
    simp [feConstant_feature, Column.presentCount, dfSingleClass, pTarget]
  simp only [AutoPreprocessor.detect_useless_columns]
  rw [hfe]
  decide

/-- Evaluation fact: splitting the single-class table. -/
theorem split_singleClass :
    train_test_split
        [("feature", Column.ints [10, 20, 10, 30, 20, 10, 20, 10, 30, 20])]
        (Column.ints [0, 0, 0, 0, 0, 0, 0, 0, 0, 0]) 0.2 true =
      .ok ([("feature", Column.ints [10, 20, 10, 30, 20, 10, 20, 10])],
        [("feature", Column.ints [30, 20])],
        Column.ints [0, 0, 0, 0, 0, 0, 0, 0], Column.ints [0, 0]) := by
  simp only [train_test_split]
  rw [show Column.length (Column.ints [0, 0, 0, 0, 0, 0, 0, 0, 0, 0]) = 10 from rfl]
  rw [show ((⌈((10 : ℕ) : ℚ) * (0.2 : ℚ)⌉).toNat) = 2 from by norm_num; rfl]
  decide

/-- C8 scenario: a single-class target does not make `preprocess` raise. -/
theorem preprocess_singleClass_ok :
    pTarget.preprocess dfSingleClass 0.2 =
      .ok (⟨"target", [], ["feature"], ["feature"], [], []⟩,
        [("feature", Column.ints [10, 20, 10, 30, 20, 10, 20, 10])],
        [("feature", Column.ints [30, 20])],
        Column.ints [0, 0, 0, 0, 0, 0, 0, 0], Column.ints [0, 0],
        "classification") := by
  rw [preprocess_some pTarget dfSingleClass 0.2
    (Column.ints [0, 0, 0, 0, 0, 0, 0, 0, 0, 0]) rfl]
  simp only [preprocessBody, useless_dfSingleClass]
  rw [detect_problem_type_of_lt20 (Column.ints [0, 0, 0, 0, 0, 0, 0, 0, 0, 0])
    (by decide) rfl (by decide)]
  simp [dfSingleClass, pTarget, handle_missing_values, fillColumn,
    AutoPreprocessor.encode_categorical, catColsOf, fitEncoders, encodeColFit,
    Column.isNumeric, Column.isObject, split_singleClass]

/-- Evaluation fact: neither all-numeric feature column is
quasi-constant. -/
theorem feConstant_allNumeric :
    feConstant (Column.ints [1, 3, 2, 5, 4, 1, 3, 2, 5, 4]) = false ∧
    feConstant (Column.floats [some 1, some 2, some 1, some 2, some 1, some 2,
      some 1, some 2, some 1, some 2]) = false := by
  constructor
  · simp only [feConstant]
    rw [decide_eq_false]
    rintro ⟨-, hle⟩
    rw [show maxCountOf ([1, 3, 2, 5, 4, 1, 3, 2, 5, 4] : List ℤ) = 2 from rfl,
      show ([1, 3, 2, 5, 4, 1, 3, 2, 5, 4] : List ℤ).length = 10 from rfl] at hle
    norm_num at hle
  · simp only [feConstant]
    rw [decide_eq_false]
    rintro ⟨-, hle⟩
    rw [show maxCountOf (List.filterMap id
        ([some 1, some 2, some 1, some 2, some 1, some 2,
          some 1, some 2, some 1, some 2] : List (Option ℚ))) = 5 from rfl,
      show (List.filterMap id
        ([some 1, some 2, some 1, some 2, some 1, some 2,
          some 1, some 2, some 1, some 2] : List (Option ℚ))).length = 10 from rfl] at hle
    norm_num at hle

/-- Evaluation fact: `detect_useless_columns` keeps the all-numeric table
intact (the two feature columns have different dtypes, so the duplicate
detector does not flag them). -/
theorem useless_dfAllNumeric :
    pTarget.detect_useless_columns dfAllNumeric =
      (⟨"target", [], [], [], [], []⟩, []) := by
  have hfe : pTarget.detect_useless_columns_with_feature_engine dfAllNumeric = [] := by
    simp only [AutoPreprocessor.detect_useless_columns_with_feature_engine]
    simp [feConstant_allNumeric.1, feConstant_allNumeric.2, Column.presentCount,
      dfAllNumeric, pTarget, feDuplicatesAux]
  simp only [AutoPreprocessor.detect_useless_columns]
  rw [hfe]
  decide

/-- Evaluation fact: splitting the all-numeric table. -/
theorem split_allNumeric :
    train_test_split
        [("a", Column.ints [1, 3, 2, 5, 4, 1, 3, 2, 5, 4]),
         ("b", Column.floats [some 1, some 2, some 1, some 2, some 1, some 2,
            some 1, some 2, some 1, some 2])]
        (Column.ints [0, 1, 0, 1, 0, 1, 0, 1, 0, 1]) 0.2 true =
      .ok ([("a", Column.ints [1, 3, 2, 5, 4, 1, 3, 2]),
          ("b", Column.floats [some 1, some 2, some 1, some 2, some 1, some 2,
            some 1, some 2])],
        [("a", Column.ints [5, 4]), ("b", Column.floats [some 1, some 2])],
        Column.ints [0, 1, 0, 1, 0, 1, 0, 1], Column.ints [0, 1]) := by
  simp only [train_test_split]
  rw [show Column.length (Column.ints [0, 1, 0, 1, 0, 1, 0, 1, 0, 1]) = 10 from rfl]
  rw [show ((⌈((10 : ℕ) : ℚ) * (0.2 : ℚ)⌉).toNat) = 2 from by norm_num; rfl]
  decide

/-- C8 scenario: an all-numeric table does not make `preprocess` raise. -/
theorem preprocess_allNumeric_ok :
    pTarget.preprocess dfAllNumeric 0.2 =
      .ok (⟨"target", [], ["a", "b"], ["a", "b"], [], []⟩,
        [("a", Column.ints [1, 3, 2, 5, 4, 1, 3, 2]),
         ("b", Column.floats [some 1, some 2, some 1, some 2, some 1, some 2,
            some 1, some 2])],
        [("a", Column.ints [5, 4]), ("b", Column.floats [some 1, some 2])],
        Column.ints [0, 1, 0, 1, 0, 1, 0, 1], Column.ints [0, 1],
        "classification") := by
  rw [preprocess_some pTarget dfAllNumeric 0.2
    (Column.ints [0, 1, 0, 1, 0, 1, 0, 1, 0, 1]) rfl]
  simp only [preprocessBody, useless_dfAllNumeric]
  rw [detect_problem_type_of_lt20 (Column.ints [0, 1, 0, 1, 0, 1, 0, 1, 0, 1])
    (by decide) rfl (by decide)]
  simp [dfAllNumeric, pTarget, handle_missing_values, fillColumn,
    AutoPreprocessor.encode_categorical, catColsOf, fitEncoders, encodeColFit,
    Column.isNumeric, Column.isObject, split_allNumeric]

/-- Evaluation fact: the alternating color column is not quasi-constant. -/
theorem feConstant_color : feConstant (Column.strs colorVals) = false := by
  simp only [feConstant]
  rw [decide_eq_false]
  rintro ⟨-, hle⟩
  rw [show maxCountOf (List.filterMap id colorVals) = 5 from by decide,
    show (List.filterMap id colorVals).length = 10 from by decide] at hle
  norm_num at hle

/-- Evaluation fact: the color column is not an identifier. -/
theorem id_color_false :
    detect_id_column "color" (Column.strs colorVals) = false := by
  simp only [detect_id_column]
  rw [show idNameMatch (stripChars (lowerChars ("color".data))) = false from by decide]
  simp only [Bool.false_eq_true, if_false]
  rw [show (List.filterMap id colorVals).dedup.length = 2 from by decide,
    show colorVals.length = 10 from by decide]
  rw [decide_eq_false (by norm_num : ¬ (((2 : ℕ) : ℚ) / ((10 : ℕ) : ℚ) > 0.95))]
  simp

/-- Evaluation fact: the color column is not high-cardinality. -/
theorem hc_color_false :
    detect_high_cardinality_categorical (Column.strs colorVals) 0.5 = false := by
  simp only [detect_high_cardinality_categorical]
  rw [decide_eq_false]
  intro h
  rw [show (Column.strs colorVals).nunique = 2 from by decide,
    show colorVals.length = 10 from by decide] at h
  norm_num at h

/-- Evaluation fact: `detect_useless_columns` keeps the all-categorical
table intact. -/
theorem useless_dfAllCategorical :
    pTarget.detect_useless_columns dfAllCategorical =
      (⟨"target", [], [], [], [], []⟩, []) := by
  have hfe : pTarget.detect_useless_columns_with_feature_engine dfAllCategorical = [] := by
    simp only [AutoPreprocessor.detect_useless_columns_with_feature_engine]
    simp [feConstant_color, dfAllCategorical, pTarget,
      show (Column.strs colorVals).presentCount = 10 from by decide,
      show (Column.strs yesNoVals).presentCount = 10 from by decide]
  simp only [AutoPreprocessor.detect_useless_columns]
  rw [hfe]
  simp [dfAllCategorical, customStep, pTarget, id_color_false, hc_color_false,
    Column.isObject]

/-- Evaluation fact: splitting the encoded all-categorical table. -/
theorem split_allCategorical :
    train_test_split
        [("color", Column.ints [1, 0, 1, 0, 1, 0, 1, 0, 1, 0])]
        (Column.ints [1, 0, 1, 0, 1, 0, 1, 0, 1, 0]) 0.2 true =
      .ok ([("color", Column.ints [1, 0, 1, 0, 1, 0, 1, 0])],
        [("color", Column.ints [1, 0])],
        Column.ints [1, 0, 1, 0, 1, 0, 1, 0], Column.ints [1, 0]) := by
  simp only [train_test_split]
  rw [show Column.length (Column.ints [1, 0, 1, 0, 1, 0, 1, 0, 1, 0]) = 10 from rfl]
  rw [show ((⌈((10 : ℕ) : ℚ) * (0.2 : ℚ)⌉).toNat) = 2 from by norm_num; rfl]
  decide

/-- C8 scenario: an all-categorical table (string feature, string target)
does not make `preprocess` raise: the feature and the target are label
encoded and the stratified split succeeds. -/
theorem preprocess_allCategorical_ok :
    pTarget.preprocess dfAllCategorical 0.2 =
      .ok (⟨"target", [("color", ["blue", "red"]), ("__target__", ["no", "yes"])],
          ["color"], [], ["color"], []⟩,
        [("color", Column.ints [1, 0, 1, 0, 1, 0, 1, 0])],
        [("color", Column.ints [1, 0])],
        Column.ints [1, 0, 1, 0, 1, 0, 1, 0], Column.ints [1, 0],
        "classification") := by
  rw [preprocess_some pTarget dfAllCategorical 0.2 (Column.strs yesNoVals) rfl]
  simp only [preprocessBody, useless_dfAllCategorical]
  rw [show AutoPreprocessor.detect_problem_type (Column.strs yesNoVals) =
    "classification" from rfl]
  simp [dfAllCategorical, pTarget, handle_missing_values,
    AutoPreprocessor.encode_categorical, catColsOf, Column.isNumeric,
    Column.isObject,
    show fillColumn (Column.strs colorVals) = Column.strs colorVals from by decide,
    show fitClasses colorVals = ["blue", "red"] from by decide,
    show fitEncoders [] [("color", Column.strs colorVals)] =
      [("color", ["blue", "red"])] from by decide,
    show encodeColFit ("color", Column.strs colorVals) =
      ("color", Column.ints [1, 0, 1, 0, 1, 0, 1, 0, 1, 0]) from by decide,
    show fitClasses yesNoVals = ["no", "yes"] from by decide,
    show fitEncodeCol yesNoVals = [1, 0, 1, 0, 1, 0, 1, 0, 1, 0] from by decide,
    alistUpd, split_allCategorical]

/-- C8 counterexample: on a table whose only feature column is a
name-matched identifier (so zero feature columns remain after dropping
useless columns), `preprocess` does not raise — it returns successfully,
with `feature_columns = []` and empty train/test feature tables, silently
tolerating the configuration the claim says must be reported as a
failure. -/
theorem preprocess_zero_features_not_reported :
    pTarget.preprocess dfZeroFeatures 0.2 =
      .ok (⟨"target", [], [], [], [], ["user_id"]⟩, [], [],
        Column.ints [0, 1, 0, 1, 0, 1, 0, 1], Column.ints [0, 1],
        "classification") ∧
    (⟨"target", [], [], [], [], ["user_id"]⟩ : AutoPreprocessor).feature_columns
      = [] :=
  ⟨preprocess_zeroFeatures_eval, rfl⟩

/-- C8 (amended): `preprocess` raises when the target column is absent
from the input table; it does not raise for degenerate but legal inputs —
a single-class target, an all-numeric table, an all-categorical table, a
table whose only feature column is constant (feature-engine's internal
all-columns-dropped error is caught and the constant column kept) — and
when zero feature columns remain after dropping useless columns it also
does not raise: it silently returns empty feature tables with
`feature_columns = []` instead of reporting the configuration. -/
theorem preprocess_failure_semantics :
    (∀ (p : AutoPreprocessor) (df : Table) (ts : ℚ),
      alistGet df p.target_column = none →
      p.preprocess df ts = .error (.keyError p.target_column)) ∧
    (pTarget.preprocess dfSingleClass 0.2).isOk = true ∧
    (pTarget.preprocess dfAllNumeric 0.2).isOk = true ∧
    (pTarget.preprocess dfAllCategorical 0.2).isOk = true ∧
    (∃ w, pTarget.preprocess dfConstantOnly 0.2 = .ok w ∧
      w.1.feature_columns = ["constant"]) ∧
    (∃ v, pTarget.preprocess dfZeroFeatures 0.2 = .ok v ∧
      v.1.feature_columns = [] ∧ v.2.1 = ([] : Table)) := by
  refine ⟨?_, ?_, ?_, ?_, ?_, ?_⟩
  · intro p df ts hy
    unfold AutoPreprocessor.preprocess
    split
    · rfl
    · next y heq =>
        rw [hy] at heq
        cases heq
  · rw [preprocess_singleClass_ok]
    rfl
  · rw [preprocess_allNumeric_ok]
    rfl
  · rw [preprocess_allCategorical_ok]
    rfl
  · exact ⟨_, preprocess_constantOnly_eval, rfl⟩
  · exact ⟨_, preprocess_zeroFeatures_eval, rfl, rfl⟩

/-- Witness for C8: a table without the target column makes `preprocess`
return the `KeyError`. -/
theorem preprocess_failure_semantics_witness :
    pTarget.preprocess [("x", Column.ints [1, 2, 3])] 0.2 =
      .error (.keyError pTarget.target_column) :=
  preprocess_failure_semantics.1 pTarget [("x", Column.ints [1, 2, 3])] 0.2 rfl

/-! ### Claim C2: the two problem-type detectors -/

/-- C2 counterexample: `AutoPreprocessor.detect_problem_type`
(preprocessor.py lines 185–203) — the variant `preprocess` calls — returns
`classification` on the spec's regression examples `[35.5, 42.1, 38.7]`
and `[3.14, 3.14, 3.14]` (each has fewer than 20 distinct values and the
method has no integer-likeness test), contradicting the claimed ordered
policy, under which both are `regression`. -/
theorem method_problem_type_contradicts_policy :
    AutoPreprocessor.detect_problem_type
        (Column.floats [some 35.5, some 42.1, some 38.7]) = "classification" ∧
    spec_problem_type (Column.floats [some 35.5, some 42.1, some 38.7]) =
      "regression" ∧
    AutoPreprocessor.detect_problem_type
        (Column.floats [some 3.14, some 3.14, some 3.14]) = "classification" ∧
    spec_problem_type (Column.floats [some 3.14, some 3.14, some 3.14]) =
      "regression" ∧
    ¬ (("classification" : String) = "regression") := by
  refine ⟨?_, ?_, ?_, ?_, by decide⟩
  · norm_num [AutoPreprocessor.detect_problem_type, Column.length,
      Column.isNumeric, Column.nunique, List.dedup, List.pwFilter,
      List.filterMap]
  · norm_num [spec_problem_type, Column.length, Column.isNumeric,
      Column.integerValued, Column.nunique, List.dedup, List.filterMap]
  · norm_num [AutoPreprocessor.detect_problem_type, Column.length,
      Column.isNumeric, Column.nunique, List.dedup, List.pwFilter,
      List.filterMap]
  · norm_num [spec_problem_type, Column.length, Column.isNumeric,
      Column.integerValued, Column.nunique, List.dedup, List.filterMap]

/-- C2 (amended): the utils `detect_problem_type`
(backend/training/utils.py) follows the spec's ordered decision policy on
every series, and gives the documented examples (`[0,1,0,1,1]` ⇒
classification, `[35.5,42.1,38.7]` ⇒ regression, `[3.14,3.14,3.14]` ⇒
regression, `[]` ⇒ classification); but the method
`AutoPreprocessor.detect_problem_type` that `preprocess` calls follows a
different rule with no integer-likeness test: a non-empty numeric series
is `classification` exactly when the distinct/total ratio is below 0.05
OR there are fewer than 20 distinct values, and `regression` otherwise
(an empty or non-numeric series is `classification`). -/
theorem detect_problem_type_variants :
    (∀ y : Column, detect_problem_type y = spec_problem_type y) ∧
    detect_problem_type (Column.ints [0, 1, 0, 1, 1]) = "classification" ∧
    detect_problem_type (Column.floats [some 35.5, some 42.1, some 38.7]) =
      "regression" ∧
    detect_problem_type (Column.floats [some 3.14, some 3.14, some 3.14]) =
      "regression" ∧
    detect_problem_type (Column.floats []) = "classification" ∧
    (∀ y : Column, ¬ y.length = 0 → y.isNumeric = true →
      (((y.nunique : ℚ) / (y.length : ℚ)) < 0.05 ∨ y.nunique < 20) →
      AutoPreprocessor.detect_problem_type y = "classification") ∧
    (∀ y : Column, AutoPreprocessor.detect_problem_type y = "regression" ↔
      (¬ y.length = 0 ∧ y.isNumeric = true ∧
        ¬ (((y.nunique : ℚ) / (y.length : ℚ)) < 0.05 ∨ y.nunique < 20))) := by
  refine ⟨?_, ?_, ?_, ?_, ?_, ?_, ?_⟩
  · intro y
    unfold detect_problem_type spec_problem_type
    rcases y with v | v | v <;>
      simp [Column.isNumeric]
  · norm_num [detect_problem_type, Column.length, Column.isNumeric,
      Column.integerValued, Column.nunique, List.dedup]
  · norm_num [detect_problem_type, Column.length, Column.isNumeric,
      Column.integerValued, Column.nunique, List.dedup, List.filterMap]
  · norm_num [detect_problem_type, Column.length, Column.isNumeric,
      Column.integerValued, Column.nunique, List.dedup, List.filterMap]
  · norm_num [detect_problem_type, Column.length]
  · intro y h0 hnum hlt
    unfold AutoPreprocessor.detect_problem_type
    simp [h0, hnum, hlt]
  · intro y
    unfold AutoPreprocessor.detect_problem_type
    constructor
    · intro h
      split at h
      · exact absurd h (by decide)
      · split at h
        · split at h
          · exact absurd h (by decide)
          · refine ⟨by assumption, by assumption, by assumption⟩
        · exact absurd h (by decide)
    · rintro ⟨h0, hnum, hnlt⟩
      simp [h0, hnum, hnlt]

/-- Witness for C2: the method returns `classification` on the concrete
series `[0, 1, 0, 1, 1]`, whose distinct count 2 is below 20. -/
theorem detect_problem_type_variants_witness :
    (¬ (Column.ints [0, 1, 0, 1, 1]).length = 0 ∧
      (Column.ints [0, 1, 0, 1, 1]).isNumeric = true ∧
      (Column.ints [0, 1, 0, 1, 1]).nunique < 20) ∧
    AutoPreprocessor.detect_problem_type (Column.ints [0, 1, 0, 1, 1]) =
      "classification" :=
  ⟨⟨by decide, by decide, by decide⟩,
    detect_problem_type_variants.2.2.2.2.2.1 (Column.ints [0, 1, 0, 1, 1])
      (by decide) (by decide) (Or.inr (by decide))⟩

end AutoMLLite
